import Mathlib

/-!
Verification of the goduwind real-time collaboration gateway.

The repository ships three implementation variants of the same product:

* `Ts` — the TypeScript implementation: the WebSocket gateway in
  `src/ws/server.ts` together with the REST controllers in
  `src/server/controllers/auth.controller.ts`, backed by a prisma store
  (tables `User`, `Session`, `Slide`, `Stroke`, statuses DRAFT/LIVE/ENDED).
* `JsA` — the first `server.js` program (token-map auth, in-memory
  sessions with per-session `strokes` and `chatMessages` arrays,
  lowercase message types, unconditional start/end endpoints).
* `JsB` — the second `server.js` program (JWT auth on the socket
  handshake, in-memory sessions with per-slide stroke maps and an
  unbounded `chatHistory`, uppercase message types).

Each variant is embedded as a pure state-transition model.  Effects are
made explicit:

* the durable store and the in-memory registries become fields of a
  state record;
* generated ids and timestamps (`randomUUID`, `new Date()`) are passed
  in as explicit arguments;
* `jwt.verify` becomes a function argument `verify` returning
  `Option` of the decoded payload (`none` models a thrown error);
* a send on an open socket becomes a `Delivery` (socket id, message)
  in the returned list; `send`/`broadcast` skip sockets that are not
  open, exactly as the code checks `readyState === OPEN`;
* `prisma.session.update` calls are counted by a ghost field
  `sessionWrites` so that durable-write counts can be stated.

Serialization helpers (`serializeSlide`, `serializeStroke`,
`JSON.stringify`) are injective field renamings and are modelled as the
identity on the modelled fields.
-/

/-- `Map.prototype.set`: replace the value under an existing key in
place, otherwise append the binding (JS maps keep insertion order). -/
def setEntry {α β : Type} [BEq α] (l : List (α × β)) (k : α) (v : β) :
    List (α × β) :=
  if l.any (fun p => p.1 == k) then
    l.map (fun p => if p.1 == k then (k, v) else p)
  else l ++ [(k, v)]

/-- `Map.prototype.delete`. -/
def removeEntry {α β : Type} [BEq α] (l : List (α × β)) (k : α) :
    List (α × β) :=
  l.filter (fun p => !(p.1 == k))

/-- `String.prototype.trim`: strip leading and trailing whitespace. -/
def jsTrim (s : String) : String :=
  ⟨((s.toList.dropWhile Char.isWhitespace).reverse.dropWhile Char.isWhitespace).reverse⟩

/-- The suffix of the last `n` entries of a list. -/
def lastN {α : Type} (n : Nat) (l : List α) : List α :=
  l.drop (l.length - n)

/-- The push-then-shift buffer step shared by the bounded history
buffers: append, then drop the oldest entry when the length exceeds
`cap` (`history.push(m); if (history.length > cap) history.shift()`). -/
def pushCapped {α : Type} (cap : Nat) (h : List α) (m : α) : List α :=
  let h1 := h ++ [m]
  if h1.length > cap then h1.tail else h1

namespace Ts

/-- Lifecycle status of a session, from the prisma enum `SessionStatus`
(`DRAFT`, `LIVE`, `ENDED`). -/
inductive SessionStatus
  | DRAFT
  | LIVE
  | ENDED
deriving DecidableEq, Repr

/-- A row of the prisma `Session` table.  Cosmetic columns (title,
description, createdAt, updatedAt) are omitted: no claim mentions them.
Timestamps are opaque strings. -/
structure Session where
  id : String
  ownerId : String
  status : SessionStatus
  chatEnabled : Bool
  currentSlideId : Option String
  startedAt : Option String
  endedAt : Option String
deriving DecidableEq, Repr

/-- A row of the prisma `Slide` table.  Asset metadata columns are
omitted: no claim mentions them. -/
structure Slide where
  id : String
  sessionId : String
  order : Nat
deriving DecidableEq, Repr

/-- A row of the prisma `Stroke` table; `payload` is the opaque JSON
stroke payload. -/
structure Stroke where
  id : String
  sessionId : String
  slideId : String
  payload : String
  createdById : String
  createdAt : String
deriving DecidableEq, Repr

/-- The in-memory `ChatMessage` record built by `handleChatMessage` in
`src/ws/server.ts`. -/
structure ChatMessage where
  id : String
  sessionId : String
  userId : String
  email : String
  message : String
  timestamp : String
deriving DecidableEq, Repr

/-- The `ClientMeta` attached to each authenticated socket by the
gateway (`userId`, `email`, `isAdmin`, optional `sessionId`). -/
structure ClientMeta where
  userId : String
  email : String
  isAdmin : Bool
  sessionId : Option String
deriving DecidableEq, Repr

/-- A row of the prisma `User` table (modelled fields only). -/
structure User where
  id : String
  email : String
deriving DecidableEq, Repr

/-- Outbound frames of the TypeScript gateway.  Each constructor is one
`type` tag with its payload fields; `SUBSCRIBED` carries the snapshot
built in `subscribe`. -/
inductive Msg
  | ERROR (message : String)
  | SUBSCRIBED (isAdmin : Bool) (sessionId : String) (status : SessionStatus)
      (chatEnabled : Bool) (currentSlideId : Option String) (slides : List Slide)
      (strokes : List Stroke) (chatMessages : List ChatMessage)
  | SESSION_STARTED (sessionId : String) (startedAt : Option String)
  | SESSION_ENDED (sessionId : String) (endedAt : Option String)
  | STROKE (stroke : Stroke)
  | CLEAR_SLIDE (slideId : String)
  | CHAT_MESSAGE (m : ChatMessage)
  | CHAT_ENABLE (sessionId : String) (enabled : Bool)
  | SLIDE_CHANGED (sessionId : String) (currentSlideId : Option String)
      (slides : List Slide)
deriving DecidableEq, Repr

/-- One delivered frame: (socket id, message). -/
abbrev Delivery := Nat × Msg

/-- Whole-system state: prisma tables plus the gateway registries
(`clients`, `rooms`, `chatMessages`) of `WebSocketManager`.
`openSockets` lists the socket ids whose `readyState` is OPEN;
`sessionWrites` is a ghost counter of `prisma.session.update` calls. -/
structure St where
  users : List User
  sessions : List Session
  slides : List Slide
  strokes : List Stroke
  clients : List (Nat × ClientMeta)
  rooms : List (String × List Nat)
  chatMessages : List (String × List ChatMessage)
  openSockets : List Nat
  sessionWrites : Nat
deriving DecidableEq, Repr

/-- `prisma.session.findUnique({ where: { id } })`. -/
def findSession (st : St) (sessionId : String) : Option Session :=
  st.sessions.find? (fun s => s.id == sessionId)

/-- `prisma.slide.findUnique({ where: { id } })`. -/
def findSlide (st : St) (slideId : String) : Option Slide :=
  st.slides.find? (fun s => s.id == slideId)

/-- Comparison used by `orderBy: { order: asc }` on slides. -/
def slideLe (a b : Slide) : Prop := a.order ≤ b.order

instance : DecidableRel slideLe := fun a b => Nat.decLe a.order b.order

instance : IsTrans Slide slideLe := ⟨fun _ _ _ h h2 => Nat.le_trans h h2⟩

instance : IsTotal Slide slideLe := ⟨fun a b => Nat.le_total a.order b.order⟩

/-- `prisma.slide.findMany({ where: { sessionId }, orderBy: { order: asc } })`
(a stable sort of the matching rows by the `order` column). -/
def slidesOf (st : St) (sessionId : String) : List Slide :=
  List.insertionSort slideLe (st.slides.filter (fun s => s.sessionId == sessionId))

/-- `prisma.stroke.findMany({ where: { sessionId, slideId }, orderBy:
{ createdAt: asc } })`.  Stroke rows are only ever appended and
`createdAt` is assigned at insertion time, so the table order is the
`createdAt` order and the query is a filter. -/
def strokesOf (st : St) (sessionId slideId : String) : List Stroke :=
  st.strokes.filter (fun s => s.sessionId == sessionId && s.slideId == slideId)

/-- `WebSocketManager.send`: serialize and send when the socket is
open, otherwise drop the frame. -/
def send (st : St) (sock : Nat) (msg : Msg) : List Delivery :=
  if st.openSockets.contains sock then [(sock, msg)] else []

/-- `WebSocketManager.broadcast`: deliver to every open socket of the
room, skipping the excluded one; missing or empty room is a no-op. -/
def broadcast (st : St) (sessionId : String) (msg : Msg)
    (exclude : Option Nat) : List Delivery :=
  match List.lookup sessionId st.rooms with
  | none => []
  | some room =>
    (room.filter (fun c => exclude != some c && st.openSockets.contains c)).map
      (fun c => (c, msg))

/-- `WebSocketManager.leaveRoom`: drop the socket from the room named
by its client meta, deleting the room when it becomes empty. -/
def leaveRoom (st : St) (sock : Nat) : St :=
  match List.lookup sock st.clients with
  | none => st
  | some client =>
    match client.sessionId with
    | none => st
    | some sid =>
      match List.lookup sid st.rooms with
      | none => st
      | some room =>
        let room' := room.filter (fun c => !(c == sock))
        if room'.isEmpty then { st with rooms := removeEntry st.rooms sid }
        else { st with rooms := setEntry st.rooms sid room' }

/-- Decoded JWT payload used by the gateway handshake. -/
structure TokenPayload where
  sub : Option String
  userId : Option String
deriving DecidableEq, Repr

/-- Outcome of the WebSocket handshake: either the socket is closed
with a close code and reason, or a `ClientMeta` is created. -/
inductive AuthResult
  | closed (code : Nat) (reason : String)
  | accepted (meta : ClientMeta)
deriving DecidableEq, Repr

/-- `WebSocketManager.authenticate`: token from the query string,
`jwt.verify` (its thrown error is the `none` case of `verify`, caught
by the surrounding try/catch), `payload.sub ?? payload.userId`, then a
`prisma.user.findUnique` existence check. -/
def authenticate (st : St) (tokenParam : Option String)
    (verify : String → Option TokenPayload) : AuthResult :=
  match tokenParam with
  | none => .closed 4401 "Missing token"
  | some token =>
    match verify token with
    | none => .closed 4401 "Authentication failed"
    | some payload =>
      match payload.sub <|> payload.userId with
      | none => .closed 4401 "Invalid token"
      | some userId =>
        match st.users.find? (fun u => u.id == userId) with
        | none => .closed 4401 "Invalid token"
        | some user =>
          .accepted { userId := user.id, email := user.email,
                      isAdmin := false, sessionId := none }

/-- One `prisma.session.update` on the row `sessionId`, bumping the
ghost write counter. -/
def updateSessionRow (st : St) (sessionId : String) (f : Session → Session) : St :=
  { st with
    sessions := st.sessions.map (fun s => if s.id == sessionId then f s else s),
    sessionWrites := st.sessionWrites + 1 }

/-- `WebSocketManager.subscribe` (serves both SUBSCRIBE and
SUBSCRIBE_ADMIN): session lookup, owner gate for admin, leave previous
room, record role and room, then the SUBSCRIBED snapshot followed by
the lifecycle event matching the status. -/
def subscribe (st : St) (sock : Nat) (client : ClientMeta)
    (sessionId : String) (asAdmin : Bool) : St × List Delivery :=
  match findSession st sessionId with
  | none => (st, send st sock (.ERROR "Session not found"))
  | some session =>
    if asAdmin && !(session.ownerId == client.userId) then
      (st, send st sock (.ERROR "Admin access denied"))
    else
      let st1 := leaveRoom st sock
      let client' := { client with sessionId := some sessionId, isAdmin := asAdmin }
      let st2 := { st1 with clients := setEntry st1.clients sock client' }
      let room := (List.lookup sessionId st2.rooms).getD []
      let room' := if room.contains sock then room else room ++ [sock]
      let st3 := { st2 with rooms := setEntry st2.rooms sessionId room' }
      let strokes := match session.currentSlideId with
        | some slideId => strokesOf st session.id slideId
        | none => []
      let chat := (List.lookup sessionId st.chatMessages).getD []
      let d1 := send st3 sock (.SUBSCRIBED client'.isAdmin session.id session.status
        session.chatEnabled session.currentSlideId (slidesOf st sessionId) strokes chat)
      let d2 := if session.status == .LIVE then
          send st3 sock (.SESSION_STARTED session.id session.startedAt)
        else []
      let d3 := if session.status == .ENDED then
          send st3 sock (.SESSION_ENDED session.id session.endedAt)
        else []
      (st3, d1 ++ d2 ++ d3)

/-- `WebSocketManager.handleStroke`: admin gate, subscription gate,
slide existence and ownership gate, durable `prisma.stroke.create`,
then a STROKE broadcast to the room. -/
def handleStroke (st : St) (sock : Nat) (client : ClientMeta)
    (sessionId slideId payload freshId nowTs : String) : St × List Delivery :=
  if !client.isAdmin then
    (st, send st sock (.ERROR "Admin privileges required"))
  else if !(client.sessionId == some sessionId) then
    (st, send st sock (.ERROR "Join the session before sending strokes"))
  else
    match findSlide st slideId with
    | none => (st, send st sock (.ERROR "Slide not found"))
    | some slide =>
      if !(slide.sessionId == sessionId) then
        (st, send st sock (.ERROR "Slide not found"))
      else
        let created : Stroke :=
          { id := freshId, sessionId := sessionId, slideId := slideId,
            payload := payload, createdById := client.userId, createdAt := nowTs }
        let st' := { st with strokes := st.strokes ++ [created] }
        (st', broadcast st' sessionId (.STROKE created) none)

/-- `WebSocketManager.handleChatMessage`: subscription gate, session
lookup, chat-enabled gate (no admin bypass), append to the per-session
buffer dropping the oldest entry above 200, then a CHAT_MESSAGE
broadcast.  `message` is the zod-validated text (trimmed, length
1..1000). -/
def handleChatMessage (st : St) (sock : Nat) (client : ClientMeta)
    (sessionId message freshId nowTs : String) : St × List Delivery :=
  if !(client.sessionId == some sessionId) then
    (st, send st sock (.ERROR "Join the session before sending messages"))
  else
    match findSession st sessionId with
    | none => (st, send st sock (.ERROR "Session not found"))
    | some session =>
      if !session.chatEnabled then
        (st, send st sock (.ERROR "Chat is disabled for this session"))
      else
        let chatMessage : ChatMessage :=
          { id := freshId, sessionId := sessionId, userId := client.userId,
            email := client.email, message := message, timestamp := nowTs }
        let history := (List.lookup sessionId st.chatMessages).getD []
        let history' := pushCapped 200 history chatMessage
        let st' := { st with chatMessages := setEntry st.chatMessages sessionId history' }
        (st', broadcast st' sessionId (.CHAT_MESSAGE chatMessage) none)

/-- `WebSocketManager.handleChatToggle`: admin gate, subscription gate,
session lookup; when the flag already has the requested value the
current value is re-sent to the caller only, otherwise the session row
is updated (one durable write) and CHAT_ENABLE is broadcast to the
room. -/
def handleChatToggle (st : St) (sock : Nat) (client : ClientMeta)
    (sessionId : String) (enabled : Bool) : St × List Delivery :=
  if !client.isAdmin then
    (st, send st sock (.ERROR "Admin privileges required"))
  else if !(client.sessionId == some sessionId) then
    (st, send st sock (.ERROR "Join the session before updating chat"))
  else
    match findSession st sessionId with
    | none => (st, send st sock (.ERROR "Session not found"))
    | some session =>
      if session.chatEnabled == enabled then
        (st, send st sock (.CHAT_ENABLE sessionId enabled))
      else
        let st' := updateSessionRow st sessionId
          (fun s => { s with chatEnabled := enabled })
        (st', broadcast st' sessionId (.CHAT_ENABLE sessionId enabled) none)

/-- REST controller responses (payload bodies omitted: no claim
mentions them). -/
inductive CtrlResp
  | ok
  | badRequest (message : String)
  | notFound (message : String)
  | forbidden (message : String)
deriving DecidableEq, Repr

/-- `startSession` controller: ownership gate via `getOwnedSession`,
rejects LIVE and ENDED, sets LIVE with `startedAt`, defaults
`currentSlideId` to the first slide when unset, then broadcasts
SESSION_STARTED and SLIDE_CHANGED. -/
def startSession (st : St) (userId sessionId nowTs : String) :
    St × CtrlResp × List Delivery :=
  match findSession st sessionId with
  | none => (st, .notFound "Session not found", [])
  | some session =>
    if !(session.ownerId == userId) then
      (st, .forbidden "You do not have access to this session", [])
    else if session.status == .LIVE then
      (st, .badRequest "Session already started", [])
    else if session.status == .ENDED then
      (st, .badRequest "Session already ended", [])
    else
      let slides := slidesOf st sessionId
      let newCurrent := match session.currentSlideId, slides with
        | none, s :: _ => some s.id
        | c, _ => c
      let st' := updateSessionRow st sessionId (fun s =>
        { s with status := .LIVE, startedAt := some nowTs, endedAt := none,
                 currentSlideId := newCurrent })
      let d1 := broadcast st' sessionId (.SESSION_STARTED sessionId (some nowTs)) none
      let d2 := broadcast st' sessionId
        (.SLIDE_CHANGED sessionId newCurrent (slidesOf st' sessionId)) none
      (st', .ok, d1 ++ d2)

/-- `endSession` controller: ownership gate, rejects any status other
than LIVE, sets ENDED with `endedAt`, then broadcasts SESSION_ENDED. -/
def endSession (st : St) (userId sessionId nowTs : String) :
    St × CtrlResp × List Delivery :=
  match findSession st sessionId with
  | none => (st, .notFound "Session not found", [])
  | some session =>
    if !(session.ownerId == userId) then
      (st, .forbidden "You do not have access to this session", [])
    else if !(session.status == .LIVE) then
      (st, .badRequest "Session is not live", [])
    else
      let st' := updateSessionRow st sessionId (fun s =>
        { s with status := .ENDED, endedAt := some nowTs })
      (st', .ok, broadcast st' sessionId (.SESSION_ENDED sessionId (some nowTs)) none)

/-- The row deletions of the `deleteSlide` transaction: the strokes of
the slide (`tx.stroke.deleteMany`) and the slide row itself
(`tx.slide.delete`). -/
def deleteRows (st : St) (slideId : String) : St :=
  { st with
    strokes := st.strokes.filter (fun s => !(s.slideId == slideId)),
    slides := st.slides.filter (fun s => !(s.id == slideId)) }

/-- The `remainingSlides` query of the transaction: the slides of the
session still present after the deletions, ordered by `order`. -/
def remainingAfterDelete (st : St) (sessionId slideId : String) : List Slide :=
  slidesOf (deleteRows st slideId) sessionId

/-- The per-row update of the renumber pass: a slide of the session
gets `order` set to its index in the read-back `remaining` sequence;
other rows are untouched. -/
def reindexSlide (remaining : List Slide) (sessionId : String) (s : Slide) :
    Slide :=
  if s.sessionId == sessionId then
    match remaining.findIdx? (fun r => r.id == s.id) with
    | some i => { s with order := i }
    | none => s
  else s

/-- The renumber updates of the transaction: every remaining slide of
the session gets `order` set to its index in the order-ascending
sequence (the source updates only rows whose order differs, which
yields the same table). -/
def renumberRows (st : St) (sessionId slideId : String) : St :=
  let st1 := deleteRows st slideId
  { st1 with slides :=
      st1.slides.map (reindexSlide (remainingAfterDelete st sessionId slideId) sessionId) }

/-- `deleteSlide` controller: ownership and slide-existence gates, then
a transaction deleting the strokes and the slide, renumbering the
remaining slides, and retargeting `currentSlideId` to the first
remaining slide when the deleted slide was current; finally
`respondWithSlides` re-reads the payload and broadcasts SLIDE_CHANGED. -/
def deleteSlide (st : St) (userId sessionId slideId : String) :
    St × CtrlResp × List Delivery :=
  match findSession st sessionId with
  | none => (st, .notFound "Session not found", [])
  | some session =>
    if !(session.ownerId == userId) then
      (st, .forbidden "You do not have access to this session", [])
    else
      match (slidesOf st sessionId).find? (fun s => s.id == slideId) with
      | none => (st, .notFound "Slide not found", [])
      | some _slide =>
        let remaining := remainingAfterDelete st sessionId slideId
        let st2 := renumberRows st sessionId slideId
        let st3 := if session.currentSlideId == some slideId then
            updateSessionRow st2 sessionId (fun s =>
              { s with currentSlideId := remaining.head?.map Slide.id })
          else st2
        let payloadCurrent := (findSession st3 sessionId).bind Session.currentSlideId
        (st3, .ok, broadcast st3 sessionId
          (.SLIDE_CHANGED sessionId payloadCurrent (slidesOf st3 sessionId)) none)

end Ts

namespace JsA

/-- A slide of the first `server.js` program (asset metadata omitted:
no claim mentions it; these slides have no `order` column). -/
structure Slide where
  id : String
deriving DecidableEq, Repr

/-- A stroke entry of the first `server.js` program: generated id, the
spread fields of the submitted stroke object (opaque), and a
timestamp. -/
structure StrokeEntry where
  id : String
  payload : String
  timestamp : String
deriving DecidableEq, Repr

/-- A chat message of the first `server.js` program. -/
structure Chat where
  id : String
  username : String
  text : String
  timestamp : String
deriving DecidableEq, Repr

/-- An in-memory session of the first `server.js` program (created
with status `draft`, `chatEnabled` false, empty arrays). -/
structure Session where
  id : String
  createdBy : String
  status : String
  startedAt : Option String
  endedAt : Option String
  chatEnabled : Bool
  currentSlideId : Option String
  slides : List Slide
  strokes : List StrokeEntry
  chatMessages : List Chat
deriving DecidableEq, Repr

/-- `socketMetadata` values: `{ sessionId, isAdmin }`. -/
structure Meta where
  sessionId : String
  isAdmin : Bool
deriving DecidableEq, Repr

/-- Outbound frames of the first `server.js` program (lowercase
types). -/
inductive Msg
  | error (message : String)
  | subscribed (sessionId : String) (isAdmin : Bool)
  | session_state (sessionId : String) (state : Session)
  | stroke (sessionId : String) (s : StrokeEntry)
  | chat_message (sessionId : String) (m : Chat)
  | chat_enable (sessionId : String) (enabled : Bool)
  | clear (sessionId : String)
  | session_closed (sessionId : String)
deriving DecidableEq, Repr

abbrev Delivery := Nat × Msg

/-- State of the first `server.js` program: the `sessions` map, the
`sessionSubscribers` map, the `socketMetadata` map, and the set of
open sockets. -/
structure St where
  sessions : List (String × Session)
  sessionSubscribers : List (String × List Nat)
  socketMetadata : List (Nat × Meta)
  openSockets : List Nat
deriving DecidableEq, Repr

/-- A direct `ws.send` reply (this program replies without checking
`readyState`). -/
def reply (sock : Nat) (msg : Msg) : List Delivery :=
  [(sock, msg)]

/-- `broadcastToSession`: deliver to every open subscriber of the
session, skipping the excluded socket; missing room is a no-op. -/
def broadcastToSession (st : St) (sessionId : String) (msg : Msg)
    (exclude : Option Nat) : List Delivery :=
  match List.lookup sessionId st.sessionSubscribers with
  | none => []
  | some subscribers =>
    (subscribers.filter (fun c => st.openSockets.contains c && exclude != some c)).map
      (fun c => (c, msg))

/-- `broadcastSessionState`: broadcast the full `session_state`
snapshot of the session. -/
def broadcastSessionState (st : St) (sessionId : String) : List Delivery :=
  match List.lookup sessionId st.sessions with
  | none => []
  | some session => broadcastToSession st sessionId (.session_state sessionId session) none

/-- REST responses of the first `server.js` program. -/
inductive Resp
  | ok
  | badRequest (message : String)
  | notFound (message : String)
  | forbidden (message : String)
deriving DecidableEq, Repr

/-- `POST /sessions/:sessionId/start`: after the ownership gate the
status is set to `live` unconditionally (no check of the current
status), `startedAt` is refreshed and `endedAt` cleared, then the
session state is broadcast. -/
def startRoute (st : St) (userId sessionId nowTs : String) :
    St × Resp × List Delivery :=
  match List.lookup sessionId st.sessions with
  | none => (st, .notFound "Session not found", [])
  | some session =>
    if !(session.createdBy == userId) then
      (st, .forbidden "Forbidden", [])
    else
      let session' := { session with
        status := "live", startedAt := some nowTs, endedAt := none }
      let st' := { st with sessions := setEntry st.sessions sessionId session' }
      (st', .ok, broadcastSessionState st' sessionId)

/-- `POST /sessions/:sessionId/end`: after the ownership gate the
status is set to `ended` unconditionally and `endedAt` refreshed, then
the session state is broadcast. -/
def endRoute (st : St) (userId sessionId nowTs : String) :
    St × Resp × List Delivery :=
  match List.lookup sessionId st.sessions with
  | none => (st, .notFound "Session not found", [])
  | some session =>
    if !(session.createdBy == userId) then
      (st, .forbidden "Forbidden", [])
    else
      let session' := { session with status := "ended", endedAt := some nowTs }
      let st' := { st with sessions := setEntry st.sessions sessionId session' }
      (st', .ok, broadcastSessionState st' sessionId)

/-- `handleChatMessage` of the first `server.js` program: metadata
gate, session lookup, chat-enabled gate (no admin bypass), trimmed
non-empty text gate, push with cap 500 dropping the oldest, then a
`chat_message` broadcast. -/
def handleChatMessage (st : St) (sock : Nat) (payloadText : Option String)
    (payloadUsername : Option String) (freshId nowTs : String) :
    St × List Delivery :=
  match List.lookup sock st.socketMetadata with
  | none => (st, reply sock (.error "Subscribe to a session first"))
  | some meta =>
    match List.lookup meta.sessionId st.sessions with
    | none => (st, reply sock (.error "Session not found"))
    | some session =>
      if !session.chatEnabled then
        (st, reply sock (.error "Chat is disabled"))
      else
        let text := match payloadText with
          | some t => jsTrim t
          | none => ""
        if text == "" then (st, reply sock (.error "text is required"))
        else
          let chatMessage : Chat :=
            { id := freshId, username := payloadUsername.getD "Anonymous",
              text := text, timestamp := nowTs }
          let session' := { session with
            chatMessages := pushCapped 500 session.chatMessages chatMessage }
          let st' := { st with sessions := setEntry st.sessions meta.sessionId session' }
          (st', broadcastToSession st' meta.sessionId
            (.chat_message meta.sessionId chatMessage) none)

/-- Outcome of a raw connection attempt. -/
inductive ConnOutcome
  | accepted
  | closed (code : Nat) (reason : String)
deriving DecidableEq, Repr

/-- The `wss.on(connection)` handler of the first `server.js` program:
it installs the message and close listeners and performs no credential
check at all, so every connection attempt is accepted regardless of
the token query parameter. -/
def handleConnection (_tokenParam : Option String) : ConnOutcome :=
  .accepted

end JsA

namespace JsB

/-- A user record of the second `server.js` program (modelled
fields). -/
structure User where
  id : String
  email : String
  name : String
deriving DecidableEq, Repr

/-- A slide of the second `server.js` program (asset urls omitted: no
claim mentions them; these slides have no `order` column, order is the
array position). -/
structure Slide where
  id : String
  type : String
  name : String
deriving DecidableEq, Repr

/-- A stroke record: generated id, the spread stroke payload (opaque),
the author, and a timestamp. -/
structure StrokeRec where
  id : String
  data : String
  userId : String
  createdAt : String
deriving DecidableEq, Repr

/-- A chat message of the second `server.js` program. -/
structure Chat where
  id : String
  userId : String
  userName : String
  message : String
  timestamp : String
deriving DecidableEq, Repr

/-- An in-memory session of the second `server.js` program: status is
a string (created as `idle`), strokes are kept per slide id, and
`chatHistory` is the chat buffer. -/
structure Session where
  id : String
  ownerId : String
  status : String
  startedAt : Option String
  endedAt : Option String
  slides : List Slide
  strokes : List (String × List StrokeRec)
  currentSlideId : Option String
  chatEnabled : Bool
  chatHistory : List Chat
deriving DecidableEq, Repr

/-- The fields this program sets on the `ws` object itself:
`ws.user` (modelled by `userId`/`userName`), `ws.sessionId`,
`ws.isAdmin`. -/
structure Conn where
  userId : String
  userName : String
  sessionId : Option String
  isAdmin : Bool
deriving DecidableEq, Repr

/-- Outbound frames of the second `server.js` program (uppercase
types).  `SUBSCRIBED` carries the serialized session including strokes
and chat history. -/
inductive Msg
  | ERROR (message : String)
  | SUBSCRIBED (role : String) (session : Session)
  | STROKE (slideId : String) (stroke : StrokeRec)
  | SLIDE_CHANGED (sessionId : String) (slideId : Option String) (slides : List Slide)
  | CHAT_MESSAGE (m : Chat)
  | CHAT_ENABLE (enabled : Bool)
  | CLEAR_SLIDE (slideId : String)
  | SESSION_STARTED (sessionId : String)
  | SESSION_ENDED (sessionId : String)
deriving DecidableEq, Repr

abbrev Delivery := Nat × Msg

/-- State of the second `server.js` program: users, the `sessions`
map, the `connectionsBySession` map, the per-socket `Conn` fields, and
the set of open sockets. -/
structure St where
  users : List User
  sessions : List (String × Session)
  connectionsBySession : List (String × List Nat)
  conns : List (Nat × Conn)
  openSockets : List Nat
deriving DecidableEq, Repr

/-- `sendMessage`: send when the socket is open. -/
def sendMessage (st : St) (sock : Nat) (msg : Msg) : List Delivery :=
  if st.openSockets.contains sock then [(sock, msg)] else []

/-- `broadcast`: deliver to every open listener of the session,
skipping the excluded socket; missing room is a no-op. -/
def broadcast (st : St) (sessionId : String) (msg : Msg)
    (exclude : Option Nat) : List Delivery :=
  match List.lookup sessionId st.connectionsBySession with
  | none => []
  | some listeners =>
    (listeners.filter (fun c => exclude != some c && st.openSockets.contains c)).map
      (fun c => (c, msg))

/-- `SESSION_ID_REGEX`: three dash-separated groups of three lowercase
letters (character codes 97 to 122; 45 is the dash). -/
def sessionIdFormatOk (s : String) : Bool :=
  let isLower := fun (c : Char) => 97 ≤ c.toNat && c.toNat ≤ 122
  match s.toList with
  | [a, b, c, d, e, f, g, h, i, j, k] =>
    isLower a && isLower b && isLower c && d.toNat == 45 &&
    isLower e && isLower f && isLower g && h.toNat == 45 &&
    isLower i && isLower j && isLower k
  | _ => false

/-- `notifySlideChange`: broadcast SLIDE_CHANGED with the current
slide id and the slide list of the given session object. -/
def notifySlideChange (st : St) (session : Session) : List Delivery :=
  broadcast st session.id
    (.SLIDE_CHANGED session.id session.currentSlideId session.slides) none

/-- `detachFromCurrentSession`: drop the socket from its current
session listener set (deleting the empty set), then clear `sessionId`
and `isAdmin` on the socket. -/
def detachFromCurrentSession (st : St) (sock : Nat) (ws : Conn) : St × Conn :=
  match ws.sessionId with
  | none => (st, ws)
  | some sid =>
    let st' := match List.lookup sid st.connectionsBySession with
      | none => st
      | some listeners =>
        let listeners' := listeners.filter (fun c => !(c == sock))
        if listeners'.isEmpty then
          { st with connectionsBySession := removeEntry st.connectionsBySession sid }
        else
          { st with connectionsBySession := setEntry st.connectionsBySession sid listeners' }
    (st', { ws with sessionId := none, isAdmin := false })

/-- `registerConnection`: detach from the previous session, set
`sessionId` and `isAdmin` on the socket, and add it to the listener
set (the updated `ws` fields are mirrored into `conns`). -/
def registerConnection (st : St) (sock : Nat) (ws : Conn)
    (sessionId : String) (isAdmin : Bool) : St × Conn :=
  let (st1, ws1) := detachFromCurrentSession st sock ws
  let ws2 := { ws1 with sessionId := some sessionId, isAdmin := isAdmin }
  let listeners := (List.lookup sessionId st1.connectionsBySession).getD []
  let listeners' := if listeners.contains sock then listeners else listeners ++ [sock]
  let st2 := { st1 with
    connectionsBySession := setEntry st1.connectionsBySession sessionId listeners',
    conns := setEntry st1.conns sock ws2 }
  (st2, ws2)

/-- `handleSubscribe` (serves SUBSCRIBE and SUBSCRIBE_ADMIN): payload
and session-id format gates, session lookup, owner gate for admin,
then registration and a single SUBSCRIBED reply carrying the full
serialized session; no lifecycle event follows. -/
def handleSubscribe (st : St) (sock : Nat) (ws : Conn)
    (payloadRoomId : Option String) (isAdmin : Bool) : St × List Delivery :=
  match payloadRoomId with
  | none => (st, sendMessage st sock (.ERROR "roomId is required"))
  | some roomId =>
    if !(sessionIdFormatOk roomId) then
      (st, sendMessage st sock (.ERROR "Invalid session id format"))
    else
      match List.lookup roomId st.sessions with
      | none => (st, sendMessage st sock (.ERROR "Session not found"))
      | some session =>
        if isAdmin && !(session.ownerId == ws.userId) then
          (st, sendMessage st sock (.ERROR "Forbidden"))
        else
          let regd := registerConnection st sock ws session.id isAdmin
          (regd.1, sendMessage regd.1 sock
            (.SUBSCRIBED (if isAdmin then "admin" else "participant") session))

/-- `handleStroke` of the second `server.js` program: subscription and
payload gates, session and slide lookup, push of the stroke record
onto the per-slide list, and, when the stroked slide is not current,
a retarget of `currentSlideId` with a SLIDE_CHANGED broadcast; finally
the STROKE broadcast. -/
def handleStroke (st : St) (sock : Nat) (ws : Conn)
    (payloadSlideId : Option String) (payloadStroke : Option String)
    (freshId nowTs : String) : St × List Delivery :=
  match ws.sessionId with
  | none => (st, sendMessage st sock (.ERROR "Not subscribed to session"))
  | some sid =>
    match payloadSlideId, payloadStroke with
    | some slideId, some strokeData =>
      match List.lookup sid st.sessions with
      | none => (st, sendMessage st sock (.ERROR "Session not found"))
      | some session =>
        match session.slides.find? (fun s => s.id == slideId) with
        | none => (st, sendMessage st sock (.ERROR "Slide not found"))
        | some slide =>
          let strokeRecord : StrokeRec :=
            { id := freshId, data := strokeData, userId := ws.userId,
              createdAt := nowTs }
          let slideStrokes := (List.lookup slide.id session.strokes).getD []
          let session1 := { session with
            strokes := setEntry session.strokes slide.id (slideStrokes ++ [strokeRecord]) }
          if !(session1.currentSlideId == some slide.id) then
            let session2 := { session1 with currentSlideId := some slide.id }
            let st1 := { st with sessions := setEntry st.sessions sid session2 }
            (st1, notifySlideChange st1 session2 ++
              broadcast st1 sid (.STROKE slide.id strokeRecord) none)
          else
            let st1 := { st with sessions := setEntry st.sessions sid session1 }
            (st1, broadcast st1 sid (.STROKE slide.id strokeRecord) none)
    | _, _ => (st, sendMessage st sock (.ERROR "Invalid stroke payload"))

/-- `handleChatMessage` of the second `server.js` program:
subscription gate, trimmed non-empty message gate, session lookup,
then the disabled-chat gate WITH the admin bypass
(`!session.chatEnabled && !ws.isAdmin`); the accepted message is
pushed onto `chatHistory` without any cap and broadcast. -/
def handleChatMessage (st : St) (sock : Nat) (ws : Conn)
    (payloadMessage : Option String) (freshId nowTs : String) :
    St × List Delivery :=
  match ws.sessionId with
  | none => (st, sendMessage st sock (.ERROR "Not subscribed to session"))
  | some sid =>
    match payloadMessage with
    | none => (st, sendMessage st sock (.ERROR "Message is required"))
    | some rawMessage =>
      if jsTrim rawMessage == "" then
        (st, sendMessage st sock (.ERROR "Message is required"))
      else
        match List.lookup sid st.sessions with
        | none => (st, sendMessage st sock (.ERROR "Session not found"))
        | some session =>
          if !session.chatEnabled && !ws.isAdmin then
            (st, sendMessage st sock (.ERROR "Chat is disabled"))
          else
            let chatMessage : Chat :=
              { id := freshId, userId := ws.userId, userName := ws.userName,
                message := jsTrim rawMessage, timestamp := nowTs }
            let session' := { session with
              chatHistory := session.chatHistory ++ [chatMessage] }
            let st' := { st with sessions := setEntry st.sessions sid session' }
            (st', broadcast st' sid (.CHAT_MESSAGE chatMessage) none)

/-- REST responses of the second `server.js` program. -/
inductive Resp
  | ok
  | badRequest (message : String)
  | notFound (message : String)
  | forbidden (message : String)
deriving DecidableEq, Repr

/-- `DELETE /api/v1/session/:sessionId/slide/:slideId`: format,
session, ownership and slide gates; splice the slide out and drop its
strokes; when the deleted slide was current, the next current slide is
`slides[idx] || slides[idx - 1] || slides[0] || null` over the spliced
array (for idx 0 the JS index -1 yields undefined; with Nat
truncation idx - 1 = 0 that branch is only reached when the spliced
array is empty, where index 0 is also out of range, so the models
agree); finally SLIDE_CHANGED is broadcast. -/
def deleteSlideRoute (st : St) (userId sessionId slideId : String) :
    St × Resp × List Delivery :=
  if !(sessionIdFormatOk sessionId) then
    (st, .badRequest "Invalid session id format", [])
  else
    match List.lookup sessionId st.sessions with
    | none => (st, .notFound "Session not found", [])
    | some session =>
      if !(session.ownerId == userId) then
        (st, .forbidden "Forbidden", [])
      else
        match session.slides.findIdx? (fun s => s.id == slideId) with
        | none => (st, .notFound "Slide not found", [])
        | some slideIndex =>
          let slides' := session.slides.eraseIdx slideIndex
          let session1 := { session with
            slides := slides', strokes := removeEntry session.strokes slideId }
          if session1.currentSlideId == some slideId then
            let nextSlide :=
              ((slides'.get? slideIndex).orElse
                (fun _ => slides'.get? (slideIndex - 1))).orElse
                (fun _ => slides'.get? 0)
            let session2 := { session1 with currentSlideId := nextSlide.map Slide.id }
            let st' := { st with sessions := setEntry st.sessions sessionId session2 }
            (st', .ok, notifySlideChange st' session2)
          else
            let st' := { st with sessions := setEntry st.sessions sessionId session1 }
            (st', .ok, notifySlideChange st' session1)

/-- Decoded JWT payload of the second `server.js` program. -/
structure TokenPayload where
  userId : String
deriving DecidableEq, Repr

/-- Outcome of the socket handshake. -/
inductive ConnOutcome
  | closed (code : Nat) (reason : String)
  | accepted (conn : Conn)
deriving DecidableEq, Repr

/-- `resolveUserFromToken`: `jwt.verify` (its thrown error is the
`none` case of `verify`) followed by the user-store lookup. -/
def resolveUserFromToken (st : St) (verify : String → Option TokenPayload)
    (token : String) : Option User :=
  match verify token with
  | none => none
  | some payload => st.users.find? (fun u => u.id == payload.userId)

/-- The `wss.on(connection)` handler of the second `server.js`
program: close 1008 when the token parameter is missing or does not
resolve to a stored user; on success the socket starts with no session
and the viewer role. -/
def handleConnection (st : St) (tokenParam : Option String)
    (verify : String → Option TokenPayload) : ConnOutcome :=
  match tokenParam with
  | none => .closed 1008 "Unauthorized"
  | some token =>
    match resolveUserFromToken st verify token with
    | none => .closed 1008 "Unauthorized"
    | some user =>
      .accepted { userId := user.id, userName := user.name,
                  sessionId := none, isAdmin := false }

end JsB

/-! ## Shared lemmas about the map and registry helpers -/

theorem lookup_setEntry {α β : Type} [BEq α] [LawfulBEq α]
    (l : List (α × β)) (k : α) (v : β) :
    List.lookup k (setEntry l k v) = some v := by
  induction l with
  | nil => simp [setEntry]
  | cons p l ih =>
    cases hpk : (p.1 == k) with
    | true =>
      simp [setEntry, hpk, List.lookup]
    | false =>
      have hkp : (k == p.1) = false := by
        rw [beq_eq_false_iff_ne] at hpk ⊢
        exact fun e => hpk e.symm
      cases hany : l.any (fun q => q.1 == k) with
      | true =>
        have hset : setEntry l k v = l.map (fun q => if q.1 == k then (k, v) else q) := by
          simp [setEntry, hany]
        have hstep : setEntry (p :: l) k v =
            p :: l.map (fun q => if q.1 == k then (k, v) else q) := by
          simp [setEntry, List.any_cons, hpk, hany]
        rw [hstep, ← hset]
        simp [List.lookup, hkp, ih]
      | false =>
        have hset : setEntry l k v = l ++ [(k, v)] := by
          simp [setEntry, hany]
        have hstep : setEntry (p :: l) k v = p :: (l ++ [(k, v)]) := by
          simp [setEntry, List.any_cons, hpk, hany]
        rw [hstep, ← hset]
        simp [List.lookup, hkp, ih]

theorem find?_map_of_pred {α : Type} (p : α → Bool) (f : α → α) (l : List α)
    (hf : ∀ a, p (f a) = p a) : (l.map f).find? p = (l.find? p).map f := by
  induction l with
  | nil => rfl
  | cons a l ih =>
    by_cases h : p a = true
    · simp [List.find?, hf, h]
    · simp only [Bool.not_eq_true] at h
      simp [List.find?, hf, h, ih]

theorem ts_leaveRoom_frame (st : Ts.St) (sock : Nat) :
    (Ts.leaveRoom st sock).users = st.users ∧
    (Ts.leaveRoom st sock).sessions = st.sessions ∧
    (Ts.leaveRoom st sock).slides = st.slides ∧
    (Ts.leaveRoom st sock).strokes = st.strokes ∧
    (Ts.leaveRoom st sock).clients = st.clients ∧
    (Ts.leaveRoom st sock).chatMessages = st.chatMessages ∧
    (Ts.leaveRoom st sock).openSockets = st.openSockets ∧
    (Ts.leaveRoom st sock).sessionWrites = st.sessionWrites := by
  cases h1 : List.lookup sock st.clients with
  | none => simp [Ts.leaveRoom, h1]
  | some client =>
    cases h2 : client.sessionId with
    | none => simp [Ts.leaveRoom, h1, h2]
    | some sid =>
      cases h3 : List.lookup sid st.rooms with
      | none => simp [Ts.leaveRoom, h1, h2, h3]
      | some room =>
        by_cases h4 : (room.filter (fun c => !(c == sock))).isEmpty = true <;>
          simp [Ts.leaveRoom, h1, h2, h3, h4]

theorem jsb_detach_spec (st : JsB.St) (sock : Nat) (ws : JsB.Conn)
    (x : Option String) (b : Bool) :
    (JsB.detachFromCurrentSession st sock ws).1.conns = st.conns ∧
    (JsB.detachFromCurrentSession st sock ws).1.sessions = st.sessions ∧
    (JsB.detachFromCurrentSession st sock ws).1.users = st.users ∧
    (JsB.detachFromCurrentSession st sock ws).1.openSockets = st.openSockets ∧
    ({ (JsB.detachFromCurrentSession st sock ws).2 with
        sessionId := x, isAdmin := b } : JsB.Conn) =
      { ws with sessionId := x, isAdmin := b } := by
  cases h1 : ws.sessionId with
  | none => simp [JsB.detachFromCurrentSession, h1]
  | some sid =>
    cases h2 : List.lookup sid st.connectionsBySession with
    | none => simp [JsB.detachFromCurrentSession, h1, h2]
    | some listeners =>
      by_cases h3 : (listeners.filter (fun c => !(c == sock))).isEmpty = true <;>
        simp [JsB.detachFromCurrentSession, h1, h2, h3]

theorem lastN_of_le {α : Type} (cap : Nat) (l : List α) (h : l.length ≤ cap) :
    lastN cap l = l := by
  unfold lastN
  have hz : l.length - cap = 0 := by omega
  simp [hz]

theorem length_lastN {α : Type} (cap : Nat) (l : List α) :
    (lastN cap l).length = min cap l.length := by
  unfold lastN
  simp [List.length_drop]
  omega

theorem lastN_cons {α : Type} (cap : Nat) (x : α) (l : List α)
    (h : cap ≤ l.length) : lastN cap (x :: l) = lastN cap l := by
  unfold lastN
  have hstep : (x :: l).length - cap = (l.length - cap) + 1 := by
    simp [List.length_cons]
    omega
  rw [hstep, List.drop_succ_cons]

theorem length_pushCapped_le {α : Type} (cap : Nat) (h : List α) (m : α)
    (hle : h.length ≤ cap) : (pushCapped cap h m).length ≤ cap := by
  simp only [pushCapped]
  split
  · simp [List.length_tail, List.length_append]
    omega
  · next hng =>
    simp [List.length_append] at hng ⊢
    omega

theorem foldl_pushCapped {α : Type} (cap : Nat) (hcap : 0 < cap) :
    ∀ (ms : List α) (h : List α), h.length ≤ cap →
      ms.foldl (pushCapped cap) h = lastN cap (h ++ ms) := by
  intro ms
  induction ms with
  | nil =>
    intro h hle
    simp [lastN_of_le cap h hle]
  | cons m rest ih =>
    intro h hle
    rw [List.foldl_cons, ih (pushCapped cap h m) (length_pushCapped_le cap h m hle)]
    simp only [pushCapped]
    by_cases hl : (h ++ [m]).length > cap
    · rw [if_pos hl]
      cases h with
      | nil => simp at hl; omega
      | cons a h' =>
        have htail : ((a :: h') ++ [m]).tail = h' ++ [m] := by simp
        rw [htail]
        have hlen : cap ≤ ((h' ++ [m]) ++ rest).length := by
          simp [List.length_append] at hl ⊢
          omega
        calc lastN cap ((h' ++ [m]) ++ rest)
            = lastN cap (a :: ((h' ++ [m]) ++ rest)) :=
              (lastN_cons cap a ((h' ++ [m]) ++ rest) hlen).symm
          _ = lastN cap ((a :: h') ++ m :: rest) := by
              simp [List.append_assoc]
    · rw [if_neg hl, List.append_assoc, List.singleton_append]

/-! ## Claim C1: CHAT_MESSAGE while chat is disabled -/

/-- Concrete session for the C1 counterexample: chat disabled. -/
def c1Session : JsB.Session :=
  { id := "aaa-bbb-ccc", ownerId := "user_owner", status := "live",
    startedAt := none, endedAt := none, slides := [], strokes := [],
    currentSlideId := none, chatEnabled := false, chatHistory := [] }

/-- Concrete admin connection (owner, subscribed) for C1. -/
def c1AdminWs : JsB.Conn :=
  { userId := "user_owner", userName := "Owner",
    sessionId := some "aaa-bbb-ccc", isAdmin := true }

/-- Concrete state for C1: the admin (socket 1) and a viewer (socket 2)
are subscribed and open, chat is disabled. -/
def c1St : JsB.St :=
  { users := [], sessions := [("aaa-bbb-ccc", c1Session)],
    connectionsBySession := [("aaa-bbb-ccc", [1, 2])],
    conns := [(1, c1AdminWs)], openSockets := [1, 2] }

/-- The chat record built by the C1 counterexample run. -/
def c1Msg : JsB.Chat :=
  { id := "chat_1", userId := "user_owner", userName := "Owner",
    message := "hi", timestamp := "t1" }

/-- C1 counterexample: in the second `server.js` program an admin DOES
bypass the disabled flag — with `chatEnabled` false its CHAT_MESSAGE is
appended to the history and broadcast to the room (socket 2 receives
it, nobody receives an ERROR), refuting the no-bypass claim. -/
theorem c1_counterexample :
    (JsB.handleChatMessage c1St 1 c1AdminWs (some "hi") "chat_1" "t1").2 =
      [(1, JsB.Msg.CHAT_MESSAGE c1Msg), (2, JsB.Msg.CHAT_MESSAGE c1Msg)] ∧
    (List.lookup "aaa-bbb-ccc"
        (JsB.handleChatMessage c1St 1 c1AdminWs (some "hi") "chat_1" "t1").1.sessions).map
      JsB.Session.chatHistory = some [c1Msg] := by
  decide

/-- C1 (amended): a CHAT_MESSAGE sent while `chatEnabled` is false
yields an ERROR to the sender, appends nothing and broadcasts nothing
(the state is returned unchanged) — in the TypeScript gateway for every
subscribed connection regardless of role, and in the second `server.js`
program for every non-admin connection (its admins bypass the flag, see
the counterexample). -/
theorem c1_chat_disabled_rejected :
    (∀ (st : Ts.St) (sock : Nat) (client : Ts.ClientMeta)
        (sid msg fid nowTs : String) (session : Ts.Session),
      client.sessionId = some sid →
      Ts.findSession st sid = some session →
      session.chatEnabled = false →
      Ts.handleChatMessage st sock client sid msg fid nowTs =
        (st, Ts.send st sock (.ERROR "Chat is disabled for this session"))) ∧
    (∀ (st : JsB.St) (sock : Nat) (ws : JsB.Conn)
        (sid raw fid nowTs : String) (session : JsB.Session),
      ws.sessionId = some sid →
      ws.isAdmin = false →
      (jsTrim raw == "") = false →
      List.lookup sid st.sessions = some session →
      session.chatEnabled = false →
      JsB.handleChatMessage st sock ws (some raw) fid nowTs =
        (st, JsB.sendMessage st sock (.ERROR "Chat is disabled"))) := by
  constructor
  · intro st sock client sid msg fid nowTs session hsub hfind hdis
    simp [Ts.handleChatMessage, hsub, hfind, hdis]
  · intro st sock ws sid raw fid nowTs session hsub hadmin htrim hfind hdis
    simp [JsB.handleChatMessage, hsub, hadmin, htrim, hfind, hdis]

/-- Concrete TypeScript-side state for the C1 witness: one session with
chat disabled and one subscribed admin client. -/
def c1TsSession : Ts.Session :=
  { id := "s1", ownerId := "u1", status := .LIVE, chatEnabled := false,
    currentSlideId := none, startedAt := none, endedAt := none }

/-- Concrete subscribed admin client for the C1 witness (admin role:
no bypass even for admins in the TypeScript gateway). -/
def c1TsClient : Ts.ClientMeta :=
  { userId := "u1", email := "owner@example.com", isAdmin := true,
    sessionId := some "s1" }

/-- Concrete TypeScript-side state for the C1 witness. -/
def c1TsSt : Ts.St :=
  { users := [], sessions := [c1TsSession], slides := [], strokes := [],
    clients := [(1, c1TsClient)], rooms := [("s1", [1])],
    chatMessages := [], openSockets := [1], sessionWrites := 0 }

/-- Concrete non-admin connection for the C1 witness. -/
def c1ViewerWs : JsB.Conn :=
  { userId := "user_viewer", userName := "Viewer",
    sessionId := some "aaa-bbb-ccc", isAdmin := false }

/-- Concrete state for the C1 witness viewer side. -/
def c1ViewerSt : JsB.St :=
  { users := [], sessions := [("aaa-bbb-ccc", c1Session)],
    connectionsBySession := [("aaa-bbb-ccc", [2])],
    conns := [(2, c1ViewerWs)], openSockets := [2] }

/-- C1 witness: both halves of the amended claim instantiated at
concrete admin connections with chat disabled. -/
theorem c1_witness :
    Ts.handleChatMessage c1TsSt 1 c1TsClient "s1" "hi" "m1" "t1" =
      (c1TsSt, Ts.send c1TsSt 1 (.ERROR "Chat is disabled for this session")) ∧
    JsB.handleChatMessage c1ViewerSt 2 c1ViewerWs (some "hi") "m2" "t2" =
      (c1ViewerSt, JsB.sendMessage c1ViewerSt 2 (.ERROR "Chat is disabled")) :=
  ⟨c1_chat_disabled_rejected.1 c1TsSt 1 c1TsClient "s1" "hi" "m1" "t1" c1TsSession
      rfl (by decide) rfl,
   c1_chat_disabled_rejected.2 c1ViewerSt 2 c1ViewerWs "aaa-bbb-ccc" "hi" "m2" "t2"
      c1Session rfl rfl (by decide) (by decide) rfl⟩

/-! ## Claim C6: SUBSCRIBE_ADMIN from a non-owner -/

/-- C6: in both gateways a SUBSCRIBE_ADMIN whose caller identity is not
the session owner yields an ERROR reply and returns the state
unchanged — the connection joins no room, leaves no room, and its
recorded role is untouched. -/
theorem c6_admin_denied :
    (∀ (st : Ts.St) (sock : Nat) (client : Ts.ClientMeta)
        (sid : String) (session : Ts.Session),
      Ts.findSession st sid = some session →
      (session.ownerId == client.userId) = false →
      Ts.subscribe st sock client sid true =
        (st, Ts.send st sock (.ERROR "Admin access denied"))) ∧
    (∀ (st : JsB.St) (sock : Nat) (ws : JsB.Conn)
        (roomId : String) (session : JsB.Session),
      JsB.sessionIdFormatOk roomId = true →
      List.lookup roomId st.sessions = some session →
      (session.ownerId == ws.userId) = false →
      JsB.handleSubscribe st sock ws (some roomId) true =
        (st, JsB.sendMessage st sock (.ERROR "Forbidden"))) := by
  constructor
  · intro st sock client sid session hfind howner
    simp [Ts.subscribe, hfind, howner]
  · intro st sock ws roomId session hfmt hfind howner
    simp [JsB.handleSubscribe, hfmt, hfind, howner]

/-- Concrete session for the C6 witness (TypeScript side). -/
def c6TsSession : Ts.Session :=
  { id := "s1", ownerId := "u1", status := .DRAFT, chatEnabled := true,
    currentSlideId := none, startedAt := none, endedAt := none }

/-- Concrete state for the C6 witness (TypeScript side): session owned
by u1, caller u2. -/
def c6TsSt : Ts.St :=
  { users := [], sessions := [c6TsSession],
    slides := [], strokes := [], clients := [], rooms := [],
    chatMessages := [], openSockets := [7], sessionWrites := 0 }

/-- Concrete non-owner client for the C6 witness. -/
def c6TsClient : Ts.ClientMeta :=
  { userId := "u2", email := "viewer@example.com", isAdmin := false,
    sessionId := none }

/-- Concrete session for the C6 witness (second server.js side). -/
def c6JsSession : JsB.Session :=
  { id := "abc-def-ghi", ownerId := "user_a", status := "idle",
    startedAt := none, endedAt := none, slides := [], strokes := [],
    currentSlideId := none, chatEnabled := true, chatHistory := [] }

/-- Concrete state for the C6 witness (second server.js side). -/
def c6JsSt : JsB.St :=
  { users := [], sessions := [("abc-def-ghi", c6JsSession)],
    connectionsBySession := [], conns := [], openSockets := [7] }

/-- Concrete non-owner connection for the C6 witness. -/
def c6JsWs : JsB.Conn :=
  { userId := "user_b", userName := "B", sessionId := none, isAdmin := false }

/-- C6 witness: both halves instantiated at non-owner callers. -/
theorem c6_witness :
    Ts.subscribe c6TsSt 7 c6TsClient "s1" true =
      (c6TsSt, Ts.send c6TsSt 7 (.ERROR "Admin access denied")) ∧
    JsB.handleSubscribe c6JsSt 7 c6JsWs (some "abc-def-ghi") true =
      (c6JsSt, JsB.sendMessage c6JsSt 7 (.ERROR "Forbidden")) :=
  ⟨c6_admin_denied.1 c6TsSt 7 c6TsClient "s1" c6TsSession (by decide) (by decide),
   c6_admin_denied.2 c6JsSt 7 c6JsWs "abc-def-ghi" c6JsSession (by decide) rfl
     (by decide)⟩

/-! ## Claim C10: a plain SUBSCRIBE always records the viewer role -/

/-- C10: after a successful plain SUBSCRIBE the stored connection meta
has the viewer role (`isAdmin` false) and the new session id, whatever
role or room the connection held before — admin elevation is not
sticky. -/
theorem c10_subscribe_resets_role :
    (∀ (st : Ts.St) (sock : Nat) (client : Ts.ClientMeta)
        (sid : String) (session : Ts.Session),
      Ts.findSession st sid = some session →
      List.lookup sock ((Ts.subscribe st sock client sid false).1).clients =
        some { client with sessionId := some sid, isAdmin := false }) ∧
    (∀ (st : JsB.St) (sock : Nat) (ws : JsB.Conn)
        (roomId : String) (session : JsB.Session),
      JsB.sessionIdFormatOk roomId = true →
      List.lookup roomId st.sessions = some session →
      List.lookup sock ((JsB.handleSubscribe st sock ws (some roomId) false).1).conns =
        some { ws with sessionId := some session.id, isAdmin := false }) := by
  constructor
  · intro st sock client sid session hfind
    have hclients := (ts_leaveRoom_frame st sock).2.2.2.2.1
    simp only [Ts.subscribe, hfind, Bool.false_and, Bool.false_eq_true, if_false,
      Bool.and_eq_true, not_and]
    simp [hclients, lookup_setEntry]
  · intro st sock ws roomId session hfmt hfind
    have hconns := (jsb_detach_spec st sock ws (some session.id) false).1
    have hws := (jsb_detach_spec st sock ws (some session.id) false).2.2.2.2
    simp only [JsB.handleSubscribe, hfmt, hfind, Bool.false_and, if_true,
      JsB.registerConnection]
    simp [hconns, hws, lookup_setEntry]

/-- Concrete previously-admin client for the C10 witness. -/
def c10TsClient : Ts.ClientMeta :=
  { userId := "u1", email := "owner@example.com", isAdmin := true,
    sessionId := some "s0" }

/-- Concrete session for the C10 witness (TypeScript side). -/
def c10TsSession : Ts.Session :=
  { id := "s1", ownerId := "u1", status := .DRAFT, chatEnabled := true,
    currentSlideId := none, startedAt := none, endedAt := none }

/-- Concrete state for the C10 witness (TypeScript side): the client
currently holds the admin role on another session. -/
def c10TsSt : Ts.St :=
  { users := [],
    sessions := [c10TsSession],
    slides := [], strokes := [], clients := [(3, c10TsClient)],
    rooms := [("s0", [3])], chatMessages := [], openSockets := [3],
    sessionWrites := 0 }

/-- Concrete previously-admin connection for the C10 witness. -/
def c10JsWs : JsB.Conn :=
  { userId := "user_a", userName := "A", sessionId := some "abc-def-ghi",
    isAdmin := true }

/-- Concrete session for the C10 witness (second server.js side). -/
def c10JsSession : JsB.Session :=
  { id := "abc-def-ghi", ownerId := "user_a", status := "idle",
    startedAt := none, endedAt := none, slides := [], strokes := [],
    currentSlideId := none, chatEnabled := true, chatHistory := [] }

/-- Concrete state for the C10 witness (second server.js side). -/
def c10JsSt : JsB.St :=
  { users := [], sessions := [("abc-def-ghi", c10JsSession)],
    connectionsBySession := [("abc-def-ghi", [3])], conns := [(3, c10JsWs)],
    openSockets := [3] }

/-- C10 witness: a connection that holds the admin role re-subscribes
with plain SUBSCRIBE and its stored role drops to viewer. -/
theorem c10_witness :
    List.lookup 3 ((Ts.subscribe c10TsSt 3 c10TsClient "s1" false).1).clients =
      some { c10TsClient with sessionId := some "s1", isAdmin := false } ∧
    List.lookup 3 ((JsB.handleSubscribe c10JsSt 3 c10JsWs (some "abc-def-ghi") false).1).conns =
      some { c10JsWs with sessionId := some "abc-def-ghi", isAdmin := false } :=
  ⟨c10_subscribe_resets_role.1 c10TsSt 3 c10TsClient "s1" c10TsSession (by decide),
   c10_subscribe_resets_role.2 c10JsSt 3 c10JsWs "abc-def-ghi" c10JsSession
     (by decide) rfl⟩

/-! ## Claim C4: SUBSCRIBED snapshot and lifecycle events -/

/-- Is the frame a lifecycle event (SESSION_STARTED or
SESSION_ENDED)? -/
def JsB.isLifecycleEvent : JsB.Msg → Bool
  | .SESSION_STARTED _ => true
  | .SESSION_ENDED _ => true
  | _ => false

/-- Concrete live session for the C4 counterexample. -/
def c4Session : JsB.Session :=
  { id := "abc-def-ghi", ownerId := "user_a", status := "live",
    startedAt := some "t0", endedAt := none, slides := [], strokes := [],
    currentSlideId := none, chatEnabled := true, chatHistory := [] }

/-- Concrete unsubscribed viewer connection for C4. -/
def c4Ws : JsB.Conn :=
  { userId := "user_b", userName := "B", sessionId := none, isAdmin := false }

/-- Concrete state for the C4 counterexample. -/
def c4St : JsB.St :=
  { users := [], sessions := [("abc-def-ghi", c4Session)],
    connectionsBySession := [], conns := [(5, c4Ws)], openSockets := [5] }

/-- C4 counterexample: subscribing to a LIVE session in the second
`server.js` program yields only the SUBSCRIBED snapshot — no
SESSION_STARTED follows, refuting the claimed additional lifecycle
event. -/
theorem c4_counterexample :
    (JsB.handleSubscribe c4St 5 c4Ws (some "abc-def-ghi") false).2 =
      [(5, JsB.Msg.SUBSCRIBED "participant" c4Session)] ∧
    ((JsB.handleSubscribe c4St 5 c4Ws (some "abc-def-ghi") false).2.all
      (fun d => ! JsB.isLifecycleEvent d.2)) = true := by
  decide

/-- C4 (amended): in the TypeScript gateway every successful SUBSCRIBE
or SUBSCRIBE_ADMIN delivers exactly one SUBSCRIBED event — carrying the
role, the status, the chat flag, the slide list ordered by position,
the current slide id, the current slide stroke history and the bounded
chat history — followed by exactly one SESSION_STARTED when the status
is LIVE, exactly one SESSION_ENDED when it is ENDED, and nothing when
it is DRAFT; SUBSCRIBED is always first.  (The second `server.js`
program sends only the SUBSCRIBED snapshot, see the counterexample.) -/
theorem c4_subscribed_snapshot_first (st : Ts.St) (sock : Nat)
    (client : Ts.ClientMeta) (sid : String) (asAdmin : Bool)
    (session : Ts.Session)
    (hfind : Ts.findSession st sid = some session)
    (hgate : (asAdmin && !(session.ownerId == client.userId)) = false)
    (hopen : sock ∈ st.openSockets) :
    (Ts.subscribe st sock client sid asAdmin).2 =
      (sock, Ts.Msg.SUBSCRIBED asAdmin session.id session.status
        session.chatEnabled session.currentSlideId (Ts.slidesOf st sid)
        (match session.currentSlideId with
          | some slideId => Ts.strokesOf st session.id slideId
          | none => [])
        ((List.lookup sid st.chatMessages).getD [])) ::
      (match session.status with
        | .LIVE => [(sock, Ts.Msg.SESSION_STARTED session.id session.startedAt)]
        | .ENDED => [(sock, Ts.Msg.SESSION_ENDED session.id session.endedAt)]
        | .DRAFT => []) := by
  have hOpen := (ts_leaveRoom_frame st sock).2.2.2.2.2.2.1
  cases hs : session.status <;>
    simp [Ts.subscribe, hfind, hgate, Ts.send, hOpen, hopen, hs]

/-- Concrete draft session for the C4 witness (the spec scenario:
subscribe to a draft session with empty slides, strokes and chat). -/
def c4TsSession : Ts.Session :=
  { id := "abc-def-ghi", ownerId := "u1", status := .DRAFT,
    chatEnabled := true, currentSlideId := none, startedAt := none,
    endedAt := none }

/-- Concrete viewer client for the C4 witness. -/
def c4TsClient : Ts.ClientMeta :=
  { userId := "u2", email := "b@example.com", isAdmin := false,
    sessionId := none }

/-- Concrete state for the C4 witness. -/
def c4TsSt : Ts.St :=
  { users := [], sessions := [c4TsSession], slides := [], strokes := [],
    clients := [(5, c4TsClient)], rooms := [], chatMessages := [],
    openSockets := [5], sessionWrites := 0 }

/-- C4 witness: the spec scenario — SUBSCRIBE to a draft session
yields exactly the SUBSCRIBED snapshot with empty slides, strokes and
chat, and no lifecycle event. -/
theorem c4_witness :
    (Ts.subscribe c4TsSt 5 c4TsClient "abc-def-ghi" false).2 =
      [(5, Ts.Msg.SUBSCRIBED false "abc-def-ghi" .DRAFT true none [] [] [])] :=
  c4_subscribed_snapshot_first c4TsSt 5 c4TsClient "abc-def-ghi" false
    c4TsSession (by decide) (by decide) (by decide)

/-! ## Claim C3: CHAT_ENABLE true sent twice in a row -/

theorem none_bne_some {α : Type} [BEq α] (a : α) :
    ((none : Option α) != some a) = true := rfl

theorem ts_findSession_updateRow (st : Ts.St) (k q : String)
    (f : Ts.Session → Ts.Session) (hf : ∀ s, (f s).id = s.id) :
    Ts.findSession (Ts.updateSessionRow st k f) q =
      (Ts.findSession st q).map (fun s => if s.id == k then f s else s) := by
  unfold Ts.findSession Ts.updateSessionRow
  exact find?_map_of_pred _ _ _ (fun a => by
    by_cases h : (a.id == k) = true <;> simp [h, hf])

/-- C3 (amended): two CHAT_ENABLE true requests from a subscribed
admin, starting with the flag false, perform exactly one durable write
(the second request writes nothing and leaves the state unchanged);
the first request broadcasts CHAT_ENABLE once to every open room
member, while the second re-sends the identical payload to the caller
only — so the caller sees two identical deliveries but the rest of the
room sees one, not two. -/
theorem c3_chat_toggle_idempotent (st : Ts.St) (sock : Nat)
    (client : Ts.ClientMeta) (sid : String) (session : Ts.Session)
    (room : List Nat)
    (hadmin : client.isAdmin = true)
    (hsub : client.sessionId = some sid)
    (hfind : Ts.findSession st sid = some session)
    (hdis : session.chatEnabled = false)
    (hroom : List.lookup sid st.rooms = some room)
    (hopen : sock ∈ st.openSockets) :
    (Ts.handleChatToggle st sock client sid true).1.sessionWrites =
      st.sessionWrites + 1 ∧
    (Ts.handleChatToggle (Ts.handleChatToggle st sock client sid true).1
        sock client sid true).1 =
      (Ts.handleChatToggle st sock client sid true).1 ∧
    (Ts.handleChatToggle st sock client sid true).2 =
      (room.filter (fun c => st.openSockets.contains c)).map
        (fun c => (c, Ts.Msg.CHAT_ENABLE sid true)) ∧
    (Ts.handleChatToggle (Ts.handleChatToggle st sock client sid true).1
        sock client sid true).2 =
      [(sock, Ts.Msg.CHAT_ENABLE sid true)] := by
  have hsid : (session.id == sid) = true := by
    have h : st.sessions.find? (fun s => s.id == sid) = some session := hfind
    simpa using List.find?_some h
  have hrun1 : Ts.handleChatToggle st sock client sid true =
      (Ts.updateSessionRow st sid (fun s => { s with chatEnabled := true }),
        Ts.broadcast
          (Ts.updateSessionRow st sid (fun s => { s with chatEnabled := true }))
          sid (.CHAT_ENABLE sid true) none) := by
    simp [Ts.handleChatToggle, hadmin, hsub, hfind, hdis]
  have hfind2 : Ts.findSession
      (Ts.updateSessionRow st sid (fun s => { s with chatEnabled := true })) sid =
      some { session with chatEnabled := true } := by
    have hsideq : session.id = sid := by simpa using hsid
    rw [ts_findSession_updateRow st sid sid
      (fun s => { s with chatEnabled := true }) (fun s => rfl), hfind]
    simp [hsideq]
  have hrun2 : Ts.handleChatToggle
      (Ts.updateSessionRow st sid (fun s => { s with chatEnabled := true }))
      sock client sid true =
      (Ts.updateSessionRow st sid (fun s => { s with chatEnabled := true }),
        Ts.send
          (Ts.updateSessionRow st sid (fun s => { s with chatEnabled := true }))
          sock (.CHAT_ENABLE sid true)) := by
    simp [Ts.handleChatToggle, hadmin, hsub, hfind2]
  refine ⟨?_, ?_, ?_, ?_⟩
  · rw [hrun1]; rfl
  · rw [hrun1, hrun2]
  · rw [hrun1]
    simp [Ts.broadcast, Ts.updateSessionRow, hroom, none_bne_some]
  · rw [hrun1, hrun2]
    simp [Ts.send, Ts.updateSessionRow, hopen]

/-- Concrete session (chat off) for the C3 counterexample. -/
def c3Session : Ts.Session :=
  { id := "s1", ownerId := "u1", status := .LIVE, chatEnabled := false,
    currentSlideId := none, startedAt := none, endedAt := none }

/-- Concrete admin client for the C3 counterexample. -/
def c3Client : Ts.ClientMeta :=
  { userId := "u1", email := "owner@example.com", isAdmin := true,
    sessionId := some "s1" }

/-- Concrete state for C3: admin socket 1 and viewer socket 2 share
the room, both open. -/
def c3St : Ts.St :=
  { users := [], sessions := [c3Session], slides := [], strokes := [],
    clients := [(1, c3Client)], rooms := [("s1", [1, 2])],
    chatMessages := [], openSockets := [1, 2], sessionWrites := 0 }

/-- C3 counterexample: across the two CHAT_ENABLE true requests there
is exactly one durable write (as claimed), but the other room member
(socket 2) receives only ONE delivery in total, not the two broadcast
deliveries the claim asserts; the caller (socket 1) is the one who
receives two. -/
theorem c3_counterexample :
    ((Ts.handleChatToggle c3St 1 c3Client "s1" true).2 ++
      (Ts.handleChatToggle (Ts.handleChatToggle c3St 1 c3Client "s1" true).1
        1 c3Client "s1" true).2).countP (fun d => d.1 == 2) = 1 ∧
    ((Ts.handleChatToggle c3St 1 c3Client "s1" true).2 ++
      (Ts.handleChatToggle (Ts.handleChatToggle c3St 1 c3Client "s1" true).1
        1 c3Client "s1" true).2).countP (fun d => d.1 == 1) = 2 ∧
    (Ts.handleChatToggle (Ts.handleChatToggle c3St 1 c3Client "s1" true).1
      1 c3Client "s1" true).1.sessionWrites = 1 := by
  decide

/-- C3 witness: the amended claim instantiated at the concrete
two-member room. -/
theorem c3_witness :
    (Ts.handleChatToggle c3St 1 c3Client "s1" true).1.sessionWrites = 1 ∧
    (Ts.handleChatToggle c3St 1 c3Client "s1" true).2 =
      [(1, Ts.Msg.CHAT_ENABLE "s1" true), (2, Ts.Msg.CHAT_ENABLE "s1" true)] ∧
    (Ts.handleChatToggle (Ts.handleChatToggle c3St 1 c3Client "s1" true).1
      1 c3Client "s1" true).2 = [(1, Ts.Msg.CHAT_ENABLE "s1" true)] := by
  have h := c3_chat_toggle_idempotent c3St 1 c3Client "s1" c3Session [1, 2]
    rfl rfl rfl rfl rfl (by decide)
  exact ⟨h.1, by rw [h.2.2.1]; decide, h.2.2.2⟩

/-! ## Claim C2: the session lifecycle is monotonic -/

/-- Rank of a lifecycle status along DRAFT → LIVE → ENDED. -/
def Ts.statusRank : Ts.SessionStatus → Nat
  | .DRAFT => 0
  | .LIVE => 1
  | .ENDED => 2

/-- The status of a stored session. -/
def Ts.sessionStatus (st : Ts.St) (sid : String) : Option Ts.SessionStatus :=
  (Ts.findSession st sid).map Ts.Session.status

/-- Rank of a stored session status (0 when absent; the lifecycle
endpoints never create or delete sessions). -/
def Ts.rankOf (st : Ts.St) (sid : String) : Nat :=
  match Ts.sessionStatus st sid with
  | none => 0
  | some s => Ts.statusRank s

/-- One REST lifecycle call: `start` is the startSession controller,
`stop` the endSession controller. -/
inductive Ts.LifecycleOp
  | start (userId sessionId nowTs : String)
  | stop (userId sessionId nowTs : String)
deriving DecidableEq, Repr

/-- Apply one lifecycle call, keeping the state. -/
def Ts.applyLifecycleOp (st : Ts.St) : Ts.LifecycleOp → Ts.St
  | .start u sid nowTs => (Ts.startSession st u sid nowTs).1
  | .stop u sid nowTs => (Ts.endSession st u sid nowTs).1

/-- Apply a sequence of lifecycle calls. -/
def Ts.applyLifecycleOps (st : Ts.St) (ops : List Ts.LifecycleOp) : Ts.St :=
  ops.foldl Ts.applyLifecycleOp st

theorem ts_rank_updateRow (st : Ts.St) (k q : String)
    (f : Ts.Session → Ts.Session) (hf : ∀ s, (f s).id = s.id)
    (hmono : ∀ s, Ts.findSession st k = some s →
      Ts.statusRank s.status ≤ Ts.statusRank (f s).status) :
    Ts.rankOf st q ≤ Ts.rankOf (Ts.updateSessionRow st k f) q := by
  unfold Ts.rankOf Ts.sessionStatus
  rw [ts_findSession_updateRow st k q f hf]
  cases hq : Ts.findSession st q with
  | none => simp
  | some s =>
    simp only [Option.map_some']
    by_cases hk : (s.id == k) = true
    · have hsq : s.id = q := by
        have h : st.sessions.find? (fun x => x.id == q) = some s := hq
        simpa using List.find?_some h
      have hkq : s.id = k := by simpa using hk
      have hqk : q = k := by rw [← hsq, hkq]
      have hfk : Ts.findSession st k = some s := hqk ▸ hq
      have := hmono s hfk
      simp [hk]
      omega
    · simp [hk]

theorem ts_start_rank_mono (st : Ts.St) (u sid nowTs q : String) :
    Ts.rankOf st q ≤ Ts.rankOf (Ts.startSession st u sid nowTs).1 q := by
  cases hfind : Ts.findSession st sid with
  | none => simp [Ts.startSession, hfind]
  | some session =>
    by_cases howner : (session.ownerId == u) = true
    case neg => simp [Ts.startSession, hfind, howner]
    by_cases hlive : (session.status == Ts.SessionStatus.LIVE) = true
    case pos => simp [Ts.startSession, hfind, howner, hlive]
    by_cases hended : (session.status == Ts.SessionStatus.ENDED) = true
    case pos => simp [Ts.startSession, hfind, howner, hlive, hended]
    have hdraft : session.status = .DRAFT := by
      cases hs : session.status
      · rfl
      · rw [hs] at hlive; simp at hlive
      · rw [hs] at hended; simp at hended
    have hstart : (Ts.startSession st u sid nowTs).1 =
        Ts.updateSessionRow st sid (fun s =>
          { s with status := .LIVE, startedAt := some nowTs, endedAt := none,
                   currentSlideId :=
                     match session.currentSlideId, Ts.slidesOf st sid with
                     | none, sl :: _ => some sl.id
                     | c, _ => c }) := by
      simp [Ts.startSession, hfind, howner, hlive, hended]
    rw [hstart]
    refine ts_rank_updateRow st sid q _ (fun s => rfl) ?_
    intro s hs
    rw [hfind] at hs
    cases hs
    simp [hdraft, Ts.statusRank]

theorem ts_end_rank_mono (st : Ts.St) (u sid nowTs q : String) :
    Ts.rankOf st q ≤ Ts.rankOf (Ts.endSession st u sid nowTs).1 q := by
  cases hfind : Ts.findSession st sid with
  | none => simp [Ts.endSession, hfind]
  | some session =>
    by_cases howner : (session.ownerId == u) = true
    case neg => simp [Ts.endSession, hfind, howner]
    by_cases hlive : (session.status == Ts.SessionStatus.LIVE) = true
    case neg => simp [Ts.endSession, hfind, howner, hlive]
    have hlv : session.status = .LIVE := by simpa using hlive
    have hend : (Ts.endSession st u sid nowTs).1 =
        Ts.updateSessionRow st sid (fun s =>
          { s with status := .ENDED, endedAt := some nowTs }) := by
      simp [Ts.endSession, hfind, howner, hlive]
    rw [hend]
    refine ts_rank_updateRow st sid q _ (fun s => rfl) ?_
    intro s hs
    rw [hfind] at hs
    cases hs
    simp [hlv, Ts.statusRank]

theorem ts_ops_rank_mono (ops : List Ts.LifecycleOp) :
    ∀ (st : Ts.St) (q : String),
      Ts.rankOf st q ≤ Ts.rankOf (Ts.applyLifecycleOps st ops) q := by
  induction ops with
  | nil => intro st q; exact le_refl _
  | cons o rest ih =>
    intro st q
    refine le_trans ?_ (ih (Ts.applyLifecycleOp st o) q)
    cases o with
    | start u sid nowTs => exact ts_start_rank_mono st u sid nowTs q
    | stop u sid nowTs => exact ts_end_rank_mono st u sid nowTs q

/-- C2 (amended): in the TypeScript controllers the start operation
succeeds only from DRAFT and the end operation only from LIVE, the
status rank (draft 0, live 1, ended 2) never decreases along any
sequence of start/end calls, and consequently no reachable sequence
takes a session from ended back to live or from live back to draft.
(The `server.js` start endpoint sets the status to live
unconditionally and so restarts an ended session: see the
counterexample.) -/
theorem c2_lifecycle_monotonic :
    (∀ (st : Ts.St) (u sid nowTs : String),
      (Ts.startSession st u sid nowTs).2.1 = .ok →
      Ts.sessionStatus st sid = some .DRAFT) ∧
    (∀ (st : Ts.St) (u sid nowTs : String),
      (Ts.endSession st u sid nowTs).2.1 = .ok →
      Ts.sessionStatus st sid = some .LIVE) ∧
    (∀ (st : Ts.St) (ops : List Ts.LifecycleOp) (q : String),
      Ts.rankOf st q ≤ Ts.rankOf (Ts.applyLifecycleOps st ops) q) ∧
    (∀ (st : Ts.St) (ops : List Ts.LifecycleOp) (q : String),
      Ts.sessionStatus st q = some .ENDED →
      Ts.sessionStatus (Ts.applyLifecycleOps st ops) q ≠ some .LIVE) ∧
    (∀ (st : Ts.St) (ops : List Ts.LifecycleOp) (q : String),
      Ts.sessionStatus st q = some .LIVE →
      Ts.sessionStatus (Ts.applyLifecycleOps st ops) q ≠ some .DRAFT) := by
  refine ⟨?_, ?_, fun st ops q => ts_ops_rank_mono ops st q, ?_, ?_⟩
  · intro st u sid nowTs hok
    cases hfind : Ts.findSession st sid with
    | none => simp [Ts.startSession, hfind] at hok
    | some session =>
      by_cases howner : (session.ownerId == u) = true
      case neg => simp [Ts.startSession, hfind, howner] at hok
      by_cases hlive : (session.status == Ts.SessionStatus.LIVE) = true
      case pos => simp [Ts.startSession, hfind, howner, hlive] at hok
      by_cases hended : (session.status == Ts.SessionStatus.ENDED) = true
      case pos => simp [Ts.startSession, hfind, howner, hlive, hended] at hok
      have hdraft : session.status = .DRAFT := by
        cases hs : session.status
        · rfl
        · rw [hs] at hlive; simp at hlive
        · rw [hs] at hended; simp at hended
      simp [Ts.sessionStatus, hfind, hdraft]
  · intro st u sid nowTs hok
    cases hfind : Ts.findSession st sid with
    | none => simp [Ts.endSession, hfind] at hok
    | some session =>
      by_cases howner : (session.ownerId == u) = true
      case neg => simp [Ts.endSession, hfind, howner] at hok
      by_cases hlive : (session.status == Ts.SessionStatus.LIVE) = true
      case neg => simp [Ts.endSession, hfind, howner, hlive] at hok
      have hlv : session.status = .LIVE := by simpa using hlive
      simp [Ts.sessionStatus, hfind, hlv]
  · intro st ops q hq hfinal
    have h := ts_ops_rank_mono ops st q
    rw [show Ts.rankOf st q = 2 by simp [Ts.rankOf, hq, Ts.statusRank]] at h
    rw [show Ts.rankOf (Ts.applyLifecycleOps st ops) q = 1 by
      simp [Ts.rankOf, hfinal, Ts.statusRank]] at h
    omega
  · intro st ops q hq hfinal
    have h := ts_ops_rank_mono ops st q
    rw [show Ts.rankOf st q = 1 by simp [Ts.rankOf, hq, Ts.statusRank]] at h
    rw [show Ts.rankOf (Ts.applyLifecycleOps st ops) q = 0 by
      simp [Ts.rankOf, hfinal, Ts.statusRank]] at h
    omega

/-- Concrete draft session for the C2 witness. -/
def c2TsSession : Ts.Session :=
  { id := "s1", ownerId := "u1", status := .DRAFT, chatEnabled := true,
    currentSlideId := none, startedAt := none, endedAt := none }

/-- Concrete state for the C2 witness. -/
def c2TsSt : Ts.St :=
  { users := [], sessions := [c2TsSession], slides := [], strokes := [],
    clients := [], rooms := [], chatMessages := [], openSockets := [],
    sessionWrites := 0 }

/-- C2 witness: every conjunct of the amended claim instantiated at a
concrete draft session and the concrete call sequence start, end,
start. -/
theorem c2_witness :
    Ts.sessionStatus c2TsSt "s1" = some .DRAFT ∧
    Ts.sessionStatus (Ts.startSession c2TsSt "u1" "s1" "t1").1 "s1" = some .LIVE ∧
    Ts.rankOf c2TsSt "s1" ≤
      Ts.rankOf (Ts.applyLifecycleOps c2TsSt
        [.start "u1" "s1" "t1", .stop "u1" "s1" "t2", .start "u1" "s1" "t3"]) "s1" ∧
    Ts.sessionStatus (Ts.applyLifecycleOps c2TsSt
      [.start "u1" "s1" "t1", .stop "u1" "s1" "t2", .start "u1" "s1" "t3"]) "s1" ≠
      some .LIVE :=
  ⟨c2_lifecycle_monotonic.1 c2TsSt "u1" "s1" "t1" (by decide),
   by decide,
   c2_lifecycle_monotonic.2.2.1 c2TsSt
     [.start "u1" "s1" "t1", .stop "u1" "s1" "t2", .start "u1" "s1" "t3"] "s1",
   c2_lifecycle_monotonic.2.2.2.1
     (Ts.applyLifecycleOps c2TsSt [.start "u1" "s1" "t1", .stop "u1" "s1" "t2"])
     [.start "u1" "s1" "t3"] "s1" (by decide)⟩

/-- Concrete draft session for the C2 counterexample (first server.js
side). -/
def c2JsSession : JsA.Session :=
  { id := "s1", createdBy := "u1", status := "draft", startedAt := none,
    endedAt := none, chatEnabled := false, currentSlideId := none,
    slides := [], strokes := [], chatMessages := [] }

/-- Concrete state for the C2 counterexample. -/
def c2JsSt : JsA.St :=
  { sessions := [("s1", c2JsSession)], sessionSubscribers := [],
    socketMetadata := [], openSockets := [] }

/-- C2 counterexample: in the first `server.js` program the reachable
call sequence start, end, start takes the session from `ended` back to
`live` — the start endpoint never checks the current status. -/
theorem c2_counterexample :
    (List.lookup "s1"
        ((JsA.endRoute ((JsA.startRoute c2JsSt "u1" "s1" "t1").1)
          "u1" "s1" "t2").1).sessions).map JsA.Session.status =
      some "ended" ∧
    (List.lookup "s1"
        ((JsA.startRoute ((JsA.endRoute ((JsA.startRoute c2JsSt "u1" "s1" "t1").1)
          "u1" "s1" "t2").1) "u1" "s1" "t3").1).sessions).map JsA.Session.status =
      some "live" := by
  decide

/-! ## Claim C7: the chat history buffer is bounded and FIFO -/

/-- Chat buffer of a session in the TypeScript gateway state. -/
def Ts.chatBufferOf (st : Ts.St) (sid : String) : List Ts.ChatMessage :=
  (List.lookup sid st.chatMessages).getD []

/-- The chat record `handleChatMessage` builds from one accepted input
(message text, fresh id, timestamp). -/
def Ts.chatRecordOf (client : Ts.ClientMeta) (sid : String)
    (inp : String × String × String) : Ts.ChatMessage :=
  { id := inp.2.1, sessionId := sid, userId := client.userId,
    email := client.email, message := inp.1, timestamp := inp.2.2 }

/-- Run a sequence of CHAT_MESSAGE commands (message text, fresh id,
timestamp each) through the TypeScript gateway, keeping the state. -/
def Ts.runChatMessages (st : Ts.St) (sock : Nat) (client : Ts.ClientMeta)
    (sid : String) (inputs : List (String × String × String)) : Ts.St :=
  inputs.foldl
    (fun s inp => (Ts.handleChatMessage s sock client sid inp.1 inp.2.1 inp.2.2).1)
    st

/-- Abbreviation for the state after one accepted TypeScript chat
message: the per-session buffer is pushed with cap 200, everything else
unchanged. -/
def Ts.pushChatState (st : Ts.St) (sid : String) (m : Ts.ChatMessage) : Ts.St :=
  { st with chatMessages :=
      setEntry st.chatMessages sid (pushCapped 200 (Ts.chatBufferOf st sid) m) }

theorem ts_chat_step (st : Ts.St) (sock : Nat) (client : Ts.ClientMeta)
    (sid msg fid nowTs : String) (session : Ts.Session)
    (hsub : client.sessionId = some sid)
    (hfind : Ts.findSession st sid = some session)
    (hen : session.chatEnabled = true) :
    (Ts.handleChatMessage st sock client sid msg fid nowTs).1 =
      Ts.pushChatState st sid (Ts.chatRecordOf client sid (msg, fid, nowTs)) := by
  simp [Ts.handleChatMessage, hsub, hfind, hen, Ts.chatBufferOf,
    Ts.chatRecordOf, Ts.pushChatState]

theorem ts_chat_run (sock : Nat) (client : Ts.ClientMeta) (sid : String)
    (hsub : client.sessionId = some sid) :
    ∀ (inputs : List (String × String × String)) (st : Ts.St)
      (session : Ts.Session),
      Ts.findSession st sid = some session →
      session.chatEnabled = true →
      Ts.chatBufferOf (Ts.runChatMessages st sock client sid inputs) sid =
        (inputs.map (Ts.chatRecordOf client sid)).foldl (pushCapped 200)
          (Ts.chatBufferOf st sid) := by
  intro inputs
  induction inputs with
  | nil => intro st session hfind hen; rfl
  | cons inp rest ih =>
    intro st session hfind hen
    have hstep := ts_chat_step st sock client sid inp.1 inp.2.1 inp.2.2 session
      hsub hfind hen
    have hrun : Ts.runChatMessages st sock client sid (inp :: rest) =
        Ts.runChatMessages (Ts.handleChatMessage st sock client sid
          inp.1 inp.2.1 inp.2.2).1 sock client sid rest := by
      simp [Ts.runChatMessages, List.foldl_cons]
    rw [hrun, hstep]
    have hfind' : Ts.findSession
        (Ts.pushChatState st sid (Ts.chatRecordOf client sid
          (inp.1, inp.2.1, inp.2.2))) sid = some session := hfind
    rw [ih _ session hfind' hen]
    have hbuf : Ts.chatBufferOf
        (Ts.pushChatState st sid (Ts.chatRecordOf client sid
          (inp.1, inp.2.1, inp.2.2))) sid =
        pushCapped 200 (Ts.chatBufferOf st sid)
          (Ts.chatRecordOf client sid (inp.1, inp.2.1, inp.2.2)) := by
      simp [Ts.chatBufferOf, Ts.pushChatState, lookup_setEntry]
    rw [hbuf]
    rfl

/-- The chat record the first `server.js` program builds from one
accepted input (text, optional username, fresh id, timestamp). -/
def JsA.chatRecordOf (inp : String × Option String × String × String) :
    JsA.Chat :=
  { id := inp.2.2.1, username := inp.2.1.getD "Anonymous",
    text := jsTrim inp.1, timestamp := inp.2.2.2 }

/-- Run a sequence of chat_message commands through the first
`server.js` program, keeping the state. -/
def JsA.runChatMessages (st : JsA.St) (sock : Nat)
    (inputs : List (String × Option String × String × String)) : JsA.St :=
  inputs.foldl
    (fun s inp =>
      (JsA.handleChatMessage s sock (some inp.1) inp.2.1 inp.2.2.1 inp.2.2.2).1)
    st

/-- The session record with its chat buffer replaced. -/
def JsA.withChat (session : JsA.Session) (h : List JsA.Chat) : JsA.Session :=
  { session with chatMessages := h }

/-- Abbreviation for the state after one accepted chat message of the
first `server.js` program: the session row is replaced with the buffer
pushed at cap 500. -/
def JsA.pushChatState (st : JsA.St) (sid : String) (session : JsA.Session)
    (m : JsA.Chat) : JsA.St :=
  { st with
    sessions :=
      setEntry st.sessions sid
        (JsA.withChat session (pushCapped 500 session.chatMessages m)) }

theorem jsa_chat_step (st : JsA.St) (sock : Nat) (meta : JsA.Meta)
    (text : String) (username : Option String) (fid nowTs : String)
    (session : JsA.Session)
    (hmeta : List.lookup sock st.socketMetadata = some meta)
    (hfind : List.lookup meta.sessionId st.sessions = some session)
    (hen : session.chatEnabled = true)
    (htrim : (jsTrim text == "") = false) :
    (JsA.handleChatMessage st sock (some text) username fid nowTs).1 =
      JsA.pushChatState st meta.sessionId session
        (JsA.chatRecordOf (text, username, fid, nowTs)) := by
  simp [JsA.handleChatMessage, hmeta, hfind, hen, htrim, JsA.chatRecordOf,
    JsA.pushChatState, JsA.withChat]

theorem jsa_chat_run (sock : Nat) (meta : JsA.Meta) :
    ∀ (inputs : List (String × Option String × String × String))
      (st : JsA.St) (session : JsA.Session),
      List.lookup sock st.socketMetadata = some meta →
      List.lookup meta.sessionId st.sessions = some session →
      session.chatEnabled = true →
      (∀ inp ∈ inputs, (jsTrim inp.1 == "") = false) →
      List.lookup meta.sessionId (JsA.runChatMessages st sock inputs).sessions =
        some (JsA.withChat session
          ((inputs.map JsA.chatRecordOf).foldl (pushCapped 500)
            session.chatMessages)) := by
  intro inputs
  induction inputs with
  | nil =>
    intro st session hmeta hfind hen _
    simpa [JsA.runChatMessages, JsA.withChat] using hfind
  | cons inp rest ih =>
    intro st session hmeta hfind hen htrim
    have hstep := jsa_chat_step st sock meta inp.1 inp.2.1 inp.2.2.1 inp.2.2.2
      session hmeta hfind hen (htrim inp (by simp))
    have hrun : JsA.runChatMessages st sock (inp :: rest) =
        JsA.runChatMessages
          (JsA.handleChatMessage st sock (some inp.1) inp.2.1
            inp.2.2.1 inp.2.2.2).1 sock rest := by
      simp [JsA.runChatMessages, List.foldl_cons]
    rw [hrun, hstep]
    have hres := ih
      (JsA.pushChatState st meta.sessionId session
        (JsA.chatRecordOf (inp.1, inp.2.1, inp.2.2.1, inp.2.2.2)))
      (JsA.withChat session (pushCapped 500 session.chatMessages
        (JsA.chatRecordOf (inp.1, inp.2.1, inp.2.2.1, inp.2.2.2))))
      hmeta (by simp [JsA.pushChatState, lookup_setEntry]) hen
      (fun i hi => htrim i (by simp [hi]))
    rw [hres]
    rfl

/-- C7 (amended): after a run of accepted CHAT_MESSAGE commands the
TypeScript gateway buffer equals the last 200 of the submitted records
in submission order (oldest dropped first) and its length is
min(total, 200); the first `server.js` program does the same with cap
500; both caps lie in the 200..500 range.  (The SECOND `server.js`
program stores the history without any cap: see the
counterexample.) -/
theorem c7_chat_buffer_bounded (sock : Nat) (client : Ts.ClientMeta)
    (sid : String) (st : Ts.St) (session : Ts.Session)
    (inputs : List (String × String × String))
    (hsub : client.sessionId = some sid)
    (hfind : Ts.findSession st sid = some session)
    (hen : session.chatEnabled = true)
    (hlen : (Ts.chatBufferOf st sid).length ≤ 200)
    (stA : JsA.St) (metaA : JsA.Meta) (sessionA : JsA.Session)
    (inputsA : List (String × Option String × String × String))
    (hmetaA : List.lookup sock stA.socketMetadata = some metaA)
    (hfindA : List.lookup metaA.sessionId stA.sessions = some sessionA)
    (henA : sessionA.chatEnabled = true)
    (htrimA : ∀ inp ∈ inputsA, (jsTrim inp.1 == "") = false)
    (hlenA : sessionA.chatMessages.length ≤ 500) :
    Ts.chatBufferOf (Ts.runChatMessages st sock client sid inputs) sid =
      lastN 200 (Ts.chatBufferOf st sid ++ inputs.map (Ts.chatRecordOf client sid)) ∧
    (Ts.chatBufferOf (Ts.runChatMessages st sock client sid inputs) sid).length =
      min 200 (Ts.chatBufferOf st sid ++ inputs.map (Ts.chatRecordOf client sid)).length ∧
    List.lookup metaA.sessionId (JsA.runChatMessages stA sock inputsA).sessions =
      some (JsA.withChat sessionA
        (lastN 500 (sessionA.chatMessages ++ inputsA.map JsA.chatRecordOf))) ∧
    (lastN 500 (sessionA.chatMessages ++ inputsA.map JsA.chatRecordOf)).length =
      min 500 (sessionA.chatMessages ++ inputsA.map JsA.chatRecordOf).length := by
  have h1 : Ts.chatBufferOf (Ts.runChatMessages st sock client sid inputs) sid =
      lastN 200 (Ts.chatBufferOf st sid ++ inputs.map (Ts.chatRecordOf client sid)) := by
    rw [ts_chat_run sock client sid hsub inputs st session hfind hen]
    exact foldl_pushCapped 200 (by omega) _ _ hlen
  refine ⟨h1, ?_, ?_, length_lastN 500 _⟩
  · rw [h1, length_lastN]
  · rw [jsa_chat_run sock metaA inputsA stA sessionA hmetaA hfindA henA htrimA]
    rw [foldl_pushCapped 500 (by omega) _ _ hlenA]

/-- Concrete live session for the C7 witness (TypeScript side). -/
def c7TsSession : Ts.Session :=
  { id := "s1", ownerId := "u1", status := .LIVE, chatEnabled := true,
    currentSlideId := none, startedAt := none, endedAt := none }

/-- Concrete subscribed viewer for the C7 witness. -/
def c7TsClient : Ts.ClientMeta :=
  { userId := "u2", email := "b@example.com", isAdmin := false,
    sessionId := some "s1" }

/-- Concrete state for the C7 witness (TypeScript side). -/
def c7TsSt : Ts.St :=
  { users := [], sessions := [c7TsSession], slides := [], strokes := [],
    clients := [(4, c7TsClient)], rooms := [("s1", [4])],
    chatMessages := [], openSockets := [4], sessionWrites := 0 }

/-- Two concrete chat inputs for the C7 witness. -/
def c7Inputs : List (String × String × String) :=
  [("a", "i1", "t1"), ("b", "i2", "t2")]

/-- Concrete socket metadata for the C7 witness (first server.js
side). -/
def c7JsAMeta : JsA.Meta := { sessionId := "a1", isAdmin := false }

/-- Concrete session for the C7 witness (first server.js side). -/
def c7JsASession : JsA.Session :=
  { id := "a1", createdBy := "u1", status := "live", startedAt := none,
    endedAt := none, chatEnabled := true, currentSlideId := none,
    slides := [], strokes := [], chatMessages := [] }

/-- Concrete state for the C7 witness (first server.js side). -/
def c7JsASt : JsA.St :=
  { sessions := [("a1", c7JsASession)], sessionSubscribers := [("a1", [4])],
    socketMetadata := [(4, c7JsAMeta)], openSockets := [4] }

/-- One concrete chat input for the C7 witness (first server.js
side). -/
def c7JsAInputs : List (String × Option String × String × String) :=
  [("hi", some "bob", "i1", "t1")]

/-- C7 witness: the amended claim instantiated at concrete runs of two
and one accepted messages. -/
theorem c7_witness :
    Ts.chatBufferOf (Ts.runChatMessages c7TsSt 4 c7TsClient "s1" c7Inputs) "s1" =
      lastN 200 (Ts.chatBufferOf c7TsSt "s1" ++
        c7Inputs.map (Ts.chatRecordOf c7TsClient "s1")) ∧
    (Ts.chatBufferOf (Ts.runChatMessages c7TsSt 4 c7TsClient "s1" c7Inputs) "s1").length =
      min 200 (Ts.chatBufferOf c7TsSt "s1" ++
        c7Inputs.map (Ts.chatRecordOf c7TsClient "s1")).length ∧
    List.lookup c7JsAMeta.sessionId (JsA.runChatMessages c7JsASt 4 c7JsAInputs).sessions =
      some (JsA.withChat c7JsASession
        (lastN 500 (c7JsASession.chatMessages ++ c7JsAInputs.map JsA.chatRecordOf))) ∧
    (lastN 500 (c7JsASession.chatMessages ++ c7JsAInputs.map JsA.chatRecordOf)).length =
      min 500 (c7JsASession.chatMessages ++ c7JsAInputs.map JsA.chatRecordOf).length :=
  c7_chat_buffer_bounded 4 c7TsClient "s1" c7TsSt c7TsSession c7Inputs
    rfl rfl rfl (by decide) c7JsASt c7JsAMeta c7JsASession c7JsAInputs
    rfl rfl rfl (by decide) (by decide)

/-- Concrete session for the C7 counterexample (second server.js
side): chat enabled, empty history. -/
def c7JsBSession : JsB.Session :=
  { id := "aaa-bbb-ccc", ownerId := "user_a", status := "live",
    startedAt := none, endedAt := none, slides := [], strokes := [],
    currentSlideId := none, chatEnabled := true, chatHistory := [] }

/-- Concrete subscribed viewer for the C7 counterexample. -/
def c7JsBWs : JsB.Conn :=
  { userId := "user_b", userName := "B", sessionId := some "aaa-bbb-ccc",
    isAdmin := false }

/-- Concrete state for the C7 counterexample. -/
def c7JsBSt : JsB.St :=
  { users := [], sessions := [("aaa-bbb-ccc", c7JsBSession)],
    connectionsBySession := [("aaa-bbb-ccc", [2])], conns := [(2, c7JsBWs)],
    openSockets := [2] }

/-- The chat record each C7 counterexample step appends. -/
def c7Rec : JsB.Chat :=
  { id := "m", userId := "user_b", userName := "B", message := "hi",
    timestamp := "t" }

/-- `n` accepted CHAT_MESSAGE commands through the second `server.js`
program. -/
def c7Run : Nat → JsB.St
  | 0 => c7JsBSt
  | n + 1 => (JsB.handleChatMessage (c7Run n) 2 c7JsBWs (some "hi") "m" "t").1

theorem c7_run_spec : ∀ n, List.lookup "aaa-bbb-ccc" (c7Run n).sessions =
    some { c7JsBSession with chatHistory := List.replicate n c7Rec } := by
  intro n
  induction n with
  | zero => rfl
  | succ n ih =>
    have htrim : (jsTrim "hi" == "") = false := by decide
    show List.lookup _
      ((JsB.handleChatMessage (c7Run n) 2 c7JsBWs (some "hi") "m" "t").1).sessions = _
    simp [JsB.handleChatMessage, c7JsBWs, htrim, ih, lookup_setEntry,
      List.replicate_succ', c7JsBSession, c7Rec, jsTrim]

set_option maxRecDepth 8000 in
/-- C7 counterexample: in the second `server.js` program 501 accepted
CHAT_MESSAGE commands leave a history of length 501 — for every cap in
the claimed range 200..500 this differs from min(501, cap), so the
buffer is not bounded by any such cap (the push has no eviction). -/
theorem c7_counterexample :
    (List.lookup "aaa-bbb-ccc" (c7Run 501).sessions).map
      (fun s => s.chatHistory.length) = some 501 ∧
    ((List.range' 200 301).all (fun cap => !(501 == min 501 cap))) = true := by
  refine ⟨?_, by decide⟩
  rw [c7_run_spec 501]
  simp


/-! ## Claim C9: the frame effect of an accepted STROKE -/

/-- C9 (amended): in the TypeScript gateway an accepted STROKE appends
exactly one stroke row and broadcasts one STROKE event to every open
room member; every other state component — sessions (hence status,
chat flag and current slide id), slides, clients, rooms, chat buffers —
is returned unchanged, as the record update in the equation shows.
(The second `server.js` program violates the frame: see the
counterexample, where it retargets `currentSlideId`.) -/
theorem c9_stroke_frame (st : Ts.St) (sock : Nat) (client : Ts.ClientMeta)
    (sid slideId payload fid nowTs : String) (slide : Ts.Slide)
    (room : List Nat)
    (hadmin : client.isAdmin = true)
    (hsub : client.sessionId = some sid)
    (hslide : Ts.findSlide st slideId = some slide)
    (hss : (slide.sessionId == sid) = true)
    (hroom : List.lookup sid st.rooms = some room) :
    Ts.handleStroke st sock client sid slideId payload fid nowTs =
      ({ st with strokes := st.strokes ++
          [{ id := fid, sessionId := sid, slideId := slideId,
                payload := payload, createdById := client.userId,
                createdAt := nowTs }] },
        (room.filter (fun c => st.openSockets.contains c)).map
          (fun c => (c, Ts.Msg.STROKE { id := fid, sessionId := sid,
                                        slideId := slideId, payload := payload,
                                        createdById := client.userId,
                                        createdAt := nowTs }))) := by
  simp [Ts.handleStroke, hadmin, hsub, hslide, hss, Ts.broadcast, hroom,
    none_bne_some]

/-- Concrete slide for the C9 witness. -/
def c9TsSlide : Ts.Slide :=
  { id := "sl1", sessionId := "s1", order := 0 }

/-- Concrete admin client for the C9 witness. -/
def c9TsClient : Ts.ClientMeta :=
  { userId := "u1", email := "owner@example.com", isAdmin := true,
    sessionId := some "s1" }

/-- Concrete session for the C9 witness. -/
def c9TsSession : Ts.Session :=
  { id := "s1", ownerId := "u1", status := .LIVE, chatEnabled := true,
    currentSlideId := some "sl1", startedAt := none, endedAt := none }

/-- Concrete state for the C9 witness. -/
def c9TsSt : Ts.St :=
  { users := [],
    sessions := [c9TsSession],
    slides := [c9TsSlide], strokes := [],
    clients := [(1, c9TsClient)], rooms := [("s1", [1, 2])],
    chatMessages := [], openSockets := [1, 2], sessionWrites := 0 }

/-- The stroke row created in the C9 witness run. -/
def c9TsStroke : Ts.Stroke :=
  { id := "st1", sessionId := "s1", slideId := "sl1", payload := "p",
    createdById := "u1", createdAt := "t1" }

/-- C9 witness: the frame equation instantiated at a concrete state
with two room members. -/
theorem c9_witness :
    Ts.handleStroke c9TsSt 1 c9TsClient "s1" "sl1" "p" "st1" "t1" =
      ({ c9TsSt with strokes := [c9TsStroke] },
        [(1, Ts.Msg.STROKE c9TsStroke), (2, Ts.Msg.STROKE c9TsStroke)]) := by
  have h := c9_stroke_frame c9TsSt 1 c9TsClient "s1" "sl1" "p" "st1" "t1"
    c9TsSlide [1, 2] rfl rfl rfl (by decide) rfl
  rw [h]
  decide

/-- Concrete session for the C9 counterexample: two slides, slide A is
current. -/
def c9Session : JsB.Session :=
  { id := "abc-def-ghi", ownerId := "user_a", status := "live",
    startedAt := none, endedAt := none,
    slides := [{ id := "slide_a", type := "empty", name := "A" },
               { id := "slide_b", type := "empty", name := "B" }],
    strokes := [("slide_a", []), ("slide_b", [])],
    currentSlideId := some "slide_a", chatEnabled := true,
    chatHistory := [] }

/-- Concrete subscribed admin connection for the C9 counterexample. -/
def c9Ws : JsB.Conn :=
  { userId := "user_a", userName := "A", sessionId := some "abc-def-ghi",
    isAdmin := true }

/-- Concrete state for the C9 counterexample. -/
def c9St : JsB.St :=
  { users := [], sessions := [("abc-def-ghi", c9Session)],
    connectionsBySession := [("abc-def-ghi", [1])], conns := [(1, c9Ws)],
    openSockets := [1] }

/-- C9 counterexample: in the second `server.js` program an accepted
STROKE on a slide that is not current CHANGES the session
`currentSlideId` (from slide A to slide B) and additionally emits a
SLIDE_CHANGED broadcast — refuting the claimed frame condition. -/
theorem c9_counterexample :
    (List.lookup "abc-def-ghi"
        (JsB.handleStroke c9St 1 c9Ws (some "slide_b") (some "sx")
          "stroke_1" "t1").1.sessions).map JsB.Session.currentSlideId =
      some (some "slide_b") ∧
    c9Session.currentSlideId = some "slide_a" ∧
    ((JsB.handleStroke c9St 1 c9Ws (some "slide_b") (some "sx")
        "stroke_1" "t1").2.any
      (fun d => match d.2 with
        | JsB.Msg.SLIDE_CHANGED _ _ _ => true
        | _ => false)) = true := by
  decide

/-! ## Claim C8: handshake authentication -/

/-- C8 (amended): the TypeScript gateway closes the socket with the
non-1000 code 4401 when the token parameter is absent, when
verification rejects it, and when the resolved identity is not in the
user store, and an accepted connection starts with no room and the
viewer role; the second `server.js` program behaves the same with
close code 1008.  (The FIRST `server.js` program accepts every raw
connection without any credential check: see the counterexample.) -/
theorem c8_handshake_auth :
    (∀ (st : Ts.St) (verify : String → Option Ts.TokenPayload),
      Ts.authenticate st none verify = .closed 4401 "Missing token") ∧
    (∀ (st : Ts.St) (tok : String) (verify : String → Option Ts.TokenPayload),
      verify tok = none →
      Ts.authenticate st (some tok) verify = .closed 4401 "Authentication failed") ∧
    (∀ (st : Ts.St) (tok : String) (verify : String → Option Ts.TokenPayload)
        (payload : Ts.TokenPayload) (uid : String),
      verify tok = some payload →
      (payload.sub <|> payload.userId) = some uid →
      st.users.find? (fun u => u.id == uid) = none →
      Ts.authenticate st (some tok) verify = .closed 4401 "Invalid token") ∧
    (∀ (st : Ts.St) (tok : String) (verify : String → Option Ts.TokenPayload)
        (meta : Ts.ClientMeta),
      Ts.authenticate st (some tok) verify = .accepted meta →
      meta.sessionId = none ∧ meta.isAdmin = false) ∧
    (∀ (st : JsB.St) (verify : String → Option JsB.TokenPayload),
      JsB.handleConnection st none verify = .closed 1008 "Unauthorized") ∧
    (∀ (st : JsB.St) (tok : String) (verify : String → Option JsB.TokenPayload),
      JsB.resolveUserFromToken st verify tok = none →
      JsB.handleConnection st (some tok) verify = .closed 1008 "Unauthorized") ∧
    (∀ (st : JsB.St) (tok : String) (verify : String → Option JsB.TokenPayload)
        (conn : JsB.Conn),
      JsB.handleConnection st (some tok) verify = .accepted conn →
      conn.sessionId = none ∧ conn.isAdmin = false) ∧
    ((4401 : Nat) ≠ 1000 ∧ (1008 : Nat) ≠ 1000) := by
  refine ⟨?_, ?_, ?_, ?_, ?_, ?_, ?_, by decide, by decide⟩
  · intro st verify
    rfl
  · intro st tok verify hv
    simp [Ts.authenticate, hv]
  · intro st tok verify payload uid hv ho hu
    simp [Ts.authenticate, hv, ho, hu]
  · intro st tok verify meta hacc
    cases hv : verify tok with
    | none => simp [Ts.authenticate, hv] at hacc
    | some payload =>
      cases ho : (payload.sub <|> payload.userId) with
      | none => simp [Ts.authenticate, hv, ho] at hacc
      | some uid =>
        cases hu : st.users.find? (fun u => u.id == uid) with
        | none => simp [Ts.authenticate, hv, ho, hu] at hacc
        | some user =>
          simp only [Ts.authenticate, hv, ho, hu,
            Ts.AuthResult.accepted.injEq] at hacc
          simp [← hacc]
  · intro st verify
    rfl
  · intro st tok verify hr
    simp [JsB.handleConnection, hr]
  · intro st tok verify conn hacc
    cases hr : JsB.resolveUserFromToken st verify tok with
    | none => simp [JsB.handleConnection, hr] at hacc
    | some user =>
      simp only [JsB.handleConnection, hr,
        JsB.ConnOutcome.accepted.injEq] at hacc
      simp [← hacc]

/-- C8 counterexample: the FIRST `server.js` program accepts a raw
WebSocket connection with no token at all — the socket is not closed
with any Unauthorized code, refuting the claim for that gateway. -/
theorem c8_counterexample :
    JsA.handleConnection none = JsA.ConnOutcome.accepted := rfl

/-- Concrete user store for the C8 witness. -/
def c8TsSt : Ts.St :=
  { users := [{ id := "u1", email := "a@example.com" }], sessions := [],
    slides := [], strokes := [], clients := [], rooms := [],
    chatMessages := [], openSockets := [], sessionWrites := 0 }

/-- Concrete user store for the C8 witness (second server.js side). -/
def c8JsSt : JsB.St :=
  { users := [{ id := "u1", email := "a@example.com", name := "A" }],
    sessions := [], connectionsBySession := [], conns := [],
    openSockets := [] }

/-- C8 witness: every conjunct of the amended claim instantiated at
concrete tokens, verifiers and stores. -/
theorem c8_witness :
    Ts.authenticate c8TsSt none (fun _ => none) = .closed 4401 "Missing token" ∧
    Ts.authenticate c8TsSt (some "bad") (fun _ => none) =
      .closed 4401 "Authentication failed" ∧
    Ts.authenticate c8TsSt (some "ghost")
      (fun _ => some { sub := some "nobody", userId := none }) =
      .closed 4401 "Invalid token" ∧
    ({ userId := "u1", email := "a@example.com", isAdmin := false,
        sessionId := none : Ts.ClientMeta }.sessionId = none ∧
      { userId := "u1", email := "a@example.com", isAdmin := false,
        sessionId := none : Ts.ClientMeta }.isAdmin = false) ∧
    JsB.handleConnection c8JsSt none (fun _ => none) =
      .closed 1008 "Unauthorized" ∧
    JsB.handleConnection c8JsSt (some "bad") (fun _ => none) =
      .closed 1008 "Unauthorized" ∧
    ({ userId := "u1", userName := "A", sessionId := none,
        isAdmin := false : JsB.Conn }.sessionId = none ∧
      { userId := "u1", userName := "A", sessionId := none,
        isAdmin := false : JsB.Conn }.isAdmin = false) :=
  ⟨c8_handshake_auth.1 c8TsSt (fun _ => none),
   c8_handshake_auth.2.1 c8TsSt "bad" (fun _ => none) rfl,
   c8_handshake_auth.2.2.1 c8TsSt "ghost"
     (fun _ => some { sub := some "nobody", userId := none })
     { sub := some "nobody", userId := none } "nobody" rfl rfl (by decide),
   c8_handshake_auth.2.2.2.1 c8TsSt "good"
     (fun _ => some { sub := some "u1", userId := none }) _ (by decide),
   c8_handshake_auth.2.2.2.2.1 c8JsSt (fun _ => none),
   c8_handshake_auth.2.2.2.2.2.1 c8JsSt "bad" (fun _ => none) rfl,
   c8_handshake_auth.2.2.2.2.2.2.1 c8JsSt "good"
     (fun _ => some { userId := "u1" }) _ (by decide)⟩

/-! ## Claim C5: deleting the slide that is currently current -/

theorem findIdx?_id_go (l : List Ts.Slide) :
    ∀ (i j : Nat) (h : i < l.length), (l.map Ts.Slide.id).Nodup →
      List.findIdx? (fun r => r.id == l[i].id) l j = some (i + j) := by
  induction l with
  | nil => intro i j h hnd; simp at h
  | cons a t ih =>
    intro i j h hnd
    cases i with
    | zero =>
      simp [List.findIdx?_cons]
    | succ i =>
      have hlt : i < t.length := by simpa using h
      have hmem : t[i].id ∈ t.map Ts.Slide.id :=
        List.mem_map_of_mem _ (t.getElem_mem hlt)
    -- the head id is not among the tail ids, so the scan moves on
      have hanot : a.id ∉ t.map Ts.Slide.id := by
        simp only [List.map_cons, List.nodup_cons] at hnd
        exact hnd.1
      have hne : (a.id == t[i].id) = false := by
        rw [beq_eq_false_iff_ne]
        intro he
        exact hanot (he ▸ hmem)
      have htl : (t.map Ts.Slide.id).Nodup := by
        simp only [List.map_cons, List.nodup_cons] at hnd
        exact hnd.2
      simp only [List.getElem_cons_succ]
      rw [List.findIdx?_cons, if_neg (by simp [hne]), ih i (j + 1) hlt htl]
      congr 1
      omega

theorem findIdx?_id_of_nodup (l : List Ts.Slide) (i : Nat) (h : i < l.length)
    (hnd : (l.map Ts.Slide.id).Nodup) :
    l.findIdx? (fun r => r.id == l[i].id) = some i := by
  simpa using findIdx?_id_go l i 0 h hnd

theorem map_reindex_orders (R : List Ts.Slide) (sid : String)
    (hsess : ∀ s ∈ R, (s.sessionId == sid) = true)
    (hnd : (R.map Ts.Slide.id).Nodup) :
    (R.map (Ts.reindexSlide R sid)).map Ts.Slide.order = List.range R.length := by
  apply List.ext_getElem
  · simp
  · intro n h1 h2
    have hn : n < R.length := by simpa using h1
    simp only [List.getElem_map, List.getElem_range]
    have hs := hsess _ (R.getElem_mem hn)
    unfold Ts.reindexSlide
    rw [if_pos hs, findIdx?_id_of_nodup R n hn hnd]

theorem ts_renumber_orders (st : Ts.St) (sid slideId : String)
    (hnd : (st.slides.map Ts.Slide.id).Nodup) :
    (Ts.slidesOf (Ts.renumberRows st sid slideId) sid).map Ts.Slide.order =
      List.range (Ts.remainingAfterDelete st sid slideId).length := by
  set D := Ts.deleteRows st slideId with hD
  set F := D.slides.filter (fun s => s.sessionId == sid) with hF
  set R := Ts.remainingAfterDelete st sid slideId with hR
  set g := Ts.reindexSlide R sid with hg
  have hgoalL : Ts.slidesOf (Ts.renumberRows st sid slideId) sid =
      List.insertionSort Ts.slideLe
        ((D.slides.map g).filter (fun s => s.sessionId == sid)) := rfl
  have hcomm : (D.slides.map g).filter (fun s => s.sessionId == sid) = F.map g := by
    rw [List.filter_map]
    rw [hF]
    congr 1
    apply List.filter_congr
    intro s _
    show ((g s).sessionId == sid) = (s.sessionId == sid)
    rw [hg]
    unfold Ts.reindexSlide
    by_cases hs : (s.sessionId == sid) = true
    · rw [if_pos hs]
      cases R.findIdx? (fun r => r.id == s.id) <;> simp [hs]
    · rw [if_neg hs]
  have hDsub : D.slides.Sublist st.slides := by
    rw [hD]
    exact List.filter_sublist _
  have hndF : (F.map Ts.Slide.id).Nodup := by
    have hsub : F.Sublist st.slides := (List.filter_sublist _).trans hDsub
    exact List.Nodup.sublist (hsub.map Ts.Slide.id) hnd
  have hpermRF : R.Perm F := by
    rw [hR]
    exact List.perm_insertionSort _ _
  have hndR : (R.map Ts.Slide.id).Nodup :=
    ((hpermRF.symm).map Ts.Slide.id).nodup hndF
  have hsessF : ∀ s ∈ F, (s.sessionId == sid) = true := by
    intro s hs
    rw [hF] at hs
    exact (List.mem_filter.mp hs).2
  have hsessR : ∀ s ∈ R, (s.sessionId == sid) = true := fun s hs =>
    hsessF s (hpermRF.mem_iff.mp hs)
  have hordR : (R.map g).map Ts.Slide.order = List.range R.length := by
    rw [hg]
    exact map_reindex_orders R sid hsessR hndR
  rw [hgoalL, hcomm]
  have hsorted : List.Sorted (fun a b : Nat => a ≤ b)
      ((List.insertionSort Ts.slideLe (F.map g)).map Ts.Slide.order) := by
    rw [List.Sorted, List.pairwise_map]
    exact List.sorted_insertionSort Ts.slideLe (F.map g)
  have hperm2 : ((List.insertionSort Ts.slideLe (F.map g)).map Ts.Slide.order).Perm
      (List.range R.length) := by
    have hp : ((List.insertionSort Ts.slideLe (F.map g)).map Ts.Slide.order).Perm
        ((R.map g).map Ts.Slide.order) :=
      ((List.perm_insertionSort _ _).map _).trans
        (((hpermRF.symm).map g).map _)
    rw [hordR] at hp
    exact hp
  exact List.eq_of_perm_of_sorted hperm2 hsorted
    ((List.sorted_lt_range _).le_of_lt)

/-- C5 (amended): in the TypeScript controller, deleting the slide that
is currently marked current makes the first remaining slide (or null)
the new current slide, renumbers the remaining slides of the session to
the contiguous orders 0..N-1, and broadcasts a SLIDE_CHANGED carrying
exactly that new current slide id and the renumbered ordered slide
list.  (The second `server.js` program picks the successor slide, not
the first remaining one: see the counterexample.) -/
theorem c5_delete_current_slide (st : Ts.St) (uid sid slideId : String)
    (session : Ts.Session) (slide : Ts.Slide)
    (hfind : Ts.findSession st sid = some session)
    (howner : (session.ownerId == uid) = true)
    (hmem : (Ts.slidesOf st sid).find? (fun s => s.id == slideId) = some slide)
    (hcur : session.currentSlideId = some slideId)
    (hnd : (st.slides.map Ts.Slide.id).Nodup) :
    (Ts.findSession (Ts.deleteSlide st uid sid slideId).1 sid).map
        Ts.Session.currentSlideId =
      some ((Ts.remainingAfterDelete st sid slideId).head?.map Ts.Slide.id) ∧
    (Ts.slidesOf (Ts.deleteSlide st uid sid slideId).1 sid).map Ts.Slide.order =
      List.range (Ts.remainingAfterDelete st sid slideId).length ∧
    (Ts.deleteSlide st uid sid slideId).2.2 =
      Ts.broadcast (Ts.deleteSlide st uid sid slideId).1 sid
        (.SLIDE_CHANGED sid
          ((Ts.remainingAfterDelete st sid slideId).head?.map Ts.Slide.id)
          (Ts.slidesOf (Ts.deleteSlide st uid sid slideId).1 sid)) none := by
  have hsid : (session.id == sid) = true := by
    have h : st.sessions.find? (fun s => s.id == sid) = some session := hfind
    simpa using List.find?_some h
  have hsideq : session.id = sid := by simpa using hsid
  have hcond : (session.currentSlideId == some slideId) = true := by
    rw [hcur]
    simp
  have hst1 : (Ts.deleteSlide st uid sid slideId).1 =
      Ts.updateSessionRow (Ts.renumberRows st sid slideId) sid
        (fun s => { s with
          currentSlideId :=
            (Ts.remainingAfterDelete st sid slideId).head?.map Ts.Slide.id }) := by
    simp [Ts.deleteSlide, hfind, howner, hmem, hcond]
  have hfind2 : Ts.findSession (Ts.renumberRows st sid slideId) sid =
      some session := hfind
  have hfind3 : Ts.findSession (Ts.deleteSlide st uid sid slideId).1 sid =
      some { session with
        currentSlideId :=
          (Ts.remainingAfterDelete st sid slideId).head?.map Ts.Slide.id } := by
    rw [hst1, ts_findSession_updateRow (Ts.renumberRows st sid slideId) sid sid
      (fun s => { s with
        currentSlideId :=
          (Ts.remainingAfterDelete st sid slideId).head?.map Ts.Slide.id })
      (fun s => rfl), hfind2]
    simp [hsideq]
  have hslides : Ts.slidesOf (Ts.deleteSlide st uid sid slideId).1 sid =
      Ts.slidesOf (Ts.renumberRows st sid slideId) sid := by
    rw [hst1]
    rfl
  refine ⟨?_, ?_, ?_⟩
  · rw [hfind3]
    rfl
  · rw [hslides]
    exact ts_renumber_orders st sid slideId hnd
  · have hrun3 : (Ts.deleteSlide st uid sid slideId).2.2 =
        Ts.broadcast (Ts.deleteSlide st uid sid slideId).1 sid
          (.SLIDE_CHANGED sid
            ((Ts.findSession (Ts.deleteSlide st uid sid slideId).1 sid).bind
              Ts.Session.currentSlideId)
            (Ts.slidesOf (Ts.deleteSlide st uid sid slideId).1 sid)) none := by
      conv_lhs => rw [show Ts.deleteSlide st uid sid slideId =
        ((Ts.deleteSlide st uid sid slideId).1,
          (Ts.deleteSlide st uid sid slideId).2.1,
          (Ts.deleteSlide st uid sid slideId).2.2) from rfl]
      simp [Ts.deleteSlide, hfind, howner, hmem, hcond]
    rw [hrun3, hfind3]
    rfl

/-- Concrete session for the C5 witness: slide B is current. -/
def c5TsSession : Ts.Session :=
  { id := "s1", ownerId := "u1", status := .LIVE, chatEnabled := true,
    currentSlideId := some "slB", startedAt := none, endedAt := none }

/-- First slide of the C5 witness. -/
def c5SlideA : Ts.Slide := { id := "slA", sessionId := "s1", order := 0 }

/-- Second (current, deleted) slide of the C5 witness. -/
def c5SlideB : Ts.Slide := { id := "slB", sessionId := "s1", order := 1 }

/-- Third slide of the C5 witness. -/
def c5SlideC : Ts.Slide := { id := "slC", sessionId := "s1", order := 2 }

/-- Concrete state for the C5 witness. -/
def c5TsSt : Ts.St :=
  { users := [], sessions := [c5TsSession],
    slides := [c5SlideA, c5SlideB, c5SlideC], strokes := [], clients := [],
    rooms := [("s1", [1])], chatMessages := [], openSockets := [1],
    sessionWrites := 0 }

/-- C5 witness: the amended claim instantiated at deleting the current
slide B out of A, B, C. -/
theorem c5_witness :
    (Ts.findSession (Ts.deleteSlide c5TsSt "u1" "s1" "slB").1 "s1").map
        Ts.Session.currentSlideId =
      some ((Ts.remainingAfterDelete c5TsSt "s1" "slB").head?.map Ts.Slide.id) ∧
    (Ts.slidesOf (Ts.deleteSlide c5TsSt "u1" "s1" "slB").1 "s1").map Ts.Slide.order =
      List.range (Ts.remainingAfterDelete c5TsSt "s1" "slB").length ∧
    (Ts.deleteSlide c5TsSt "u1" "s1" "slB").2.2 =
      Ts.broadcast (Ts.deleteSlide c5TsSt "u1" "s1" "slB").1 "s1"
        (.SLIDE_CHANGED "s1"
          ((Ts.remainingAfterDelete c5TsSt "s1" "slB").head?.map Ts.Slide.id)
          (Ts.slidesOf (Ts.deleteSlide c5TsSt "u1" "s1" "slB").1 "s1")) none :=
  c5_delete_current_slide c5TsSt "u1" "s1" "slB" c5TsSession c5SlideB
    (by decide) (by decide) (by decide) rfl (by decide)

/-- Slides for the C5 counterexample (second server.js side). -/
def c5JsSlideA : JsB.Slide := { id := "slide_a", type := "empty", name := "A" }

/-- Second (current, deleted) slide of the C5 counterexample. -/
def c5JsSlideB : JsB.Slide := { id := "slide_b", type := "empty", name := "B" }

/-- Third slide of the C5 counterexample. -/
def c5JsSlideC : JsB.Slide := { id := "slide_c", type := "empty", name := "C" }

/-- Concrete session for the C5 counterexample: B is current. -/
def c5JsSession : JsB.Session :=
  { id := "abc-def-ghi", ownerId := "user_a", status := "live",
    startedAt := none, endedAt := none,
    slides := [c5JsSlideA, c5JsSlideB, c5JsSlideC], strokes := [],
    currentSlideId := some "slide_b", chatEnabled := true, chatHistory := [] }

/-- Concrete state for the C5 counterexample. -/
def c5JsSt : JsB.St :=
  { users := [], sessions := [("abc-def-ghi", c5JsSession)],
    connectionsBySession := [], conns := [], openSockets := [] }

/-- C5 counterexample: the second `server.js` program deletes current
slide B out of A, B, C and picks slide C — the slide at the spliced
index — as the new current slide, while the first remaining slide is A,
refuting the claim that the first remaining slide becomes current. -/
theorem c5_counterexample :
    (List.lookup "abc-def-ghi"
        ((JsB.deleteSlideRoute c5JsSt "user_a" "abc-def-ghi" "slide_b").1).sessions).map
      JsB.Session.currentSlideId = some (some "slide_c") ∧
    (List.lookup "abc-def-ghi"
        ((JsB.deleteSlideRoute c5JsSt "user_a" "abc-def-ghi" "slide_b").1).sessions).map
      (fun s => s.slides.head?.map JsB.Slide.id) = some (some "slide_a") := by
  decide
